import Mathlib

deriving instance DecidableEq for Except

/-!
Shallow embedding of the cvd-net-wrangle ingestion pipeline
(src/pipeline/{datasets,subjects,metadata,measurements}.py) and proofs about
its claims.

Modelling conventions:
* A pandas dataframe loaded with `dtype=str` is a list of typed rows whose
  cells are `Option String` (`none` models NaN/NA).
* The relational store is a record of tables (lists of rows).  Surrogate ids
  are assigned on bulk insert as successive values above the current maximum,
  modelling the auto-increment id column that the source always excludes from
  its insert payloads.
* SQL `count(*)` queries become lengths of filtered (joined) lists.  The
  source's `LEFT JOIN ... WHERE col = 'value'` combinations are inner joins,
  because the `WHERE` equality filters out the null-extended rows.
* Python exceptions become `Except Err`; each constructor of `Err` names the
  raise site it models.  `insert_measurements` can raise after some inserts
  have been committed, so its result carries the store at raise time.
* Python `f'{x}'` interpolation of a possibly-NaN cell into a query prints
  `nan`; `render` models this.
-/

namespace CvdNet

/-- A cell of a dataframe loaded with `dtype=str`: a string, or NaN (`none`). -/
abbrev Cell := Option String

/-- Interpolation of a cell into an SQL query string by a Python f-string:
a missing value (NaN, a float) prints as `nan`. -/
def render : Cell → String
  | some s => s
  | none => "nan"

/-- A row of the `datasets` table (payload columns used by the source). -/
structure DatasetRow where
  id : Nat
  dataset_name : String
deriving DecidableEq, Repr

/-- A row of the `subjects` table.  `date_of_birth`/`date_of_death` are stored
after `pd.to_datetime`, modelled as chronologically ordered `Nat` ordinals. -/
structure SubjectRow where
  id : Nat
  dataset_id : Nat
  subject_identifier : String
  subject_identifier_deid : String
  gender : Cell
  date_of_birth : Option Nat
  date_of_death : Option Nat
  ethnicity : Cell
deriving DecidableEq, Repr

/-- A row of the `metadata_variables` table (the columns the measurement
path reads). -/
structure VariableRow where
  id : Nat
  variable_name : String
  dataset_id : Nat
  data_type : String
  associated_visit : Cell
  has_options : Bool
  range_min : Cell
  range_max : Cell
  deidentification_required : Bool
deriving DecidableEq, Repr

/-- A row of the `metadata_variable_options` table. -/
structure OptionRow where
  id : Nat
  variable_id : Nat
  option_name : String
deriving DecidableEq, Repr

/-- A row of the `measurements` table (payload columns). -/
structure MeasurementRow where
  id : Nat
  subject_id : Nat
  variable_id : Nat
  measurement_date : Cell
  measurement_time : Cell
  visit_grouping : Cell
  value : Cell
  value_deid : Cell
deriving DecidableEq, Repr

/-- The consolidated schema: the tables the measurement-ingestion path touches. -/
structure Store where
  datasets : List DatasetRow
  subjects : List SubjectRow
  metadata_variables : List VariableRow
  metadata_variable_options : List OptionRow
  measurements : List MeasurementRow
deriving DecidableEq, Repr

/-- One constructor per modelled raise site. -/
inductive Err where
  | datasetDup
  | datasetNotFound
  | datasetNameTaken
  | subjectDatasetMissing
  | subjectDup
  | subjectNotFound
  | subjectDeidDup
  | subjectExistsAlready
  | dobAfterDod
  | variableDup
  | variableNotFound
  | optionDup
  | measurementDup
  | duplicatedRows
  | blankStrings
  | naField (f : String)
  | multipleDatasetNames
  | whitespaceName
  | badGender
  | badDateFormat (f : String)
  | badTimeFormat (f : String)
  | emptyBatch
  | indexErr
  | valueType (dt : String)
  | notAnOption
  | mdFormat
  | mdBeforeBirth
  | mdAfterDeath
  | mtFormat
  | dateParse
  | fuelOut
deriving DecidableEq, Repr

/-- Largest id present (0 when the table is empty). -/
def maxId (ids : List Nat) : Nat := ids.foldr max 0

/-- The next auto-increment id the store would assign. -/
def freshId (ids : List Nat) : Nat := maxId ids + 1

/-! ### Python regular expressions of the source, over characters

The two patterns are
`^[12][890][0-9]{2}-[0-1][0-9]-[0-3][0-9]$` (dates) and
`^([0-1][0-9]|2[0-4]):[0-5][0-9]:[0-5][0-9][.]{0,1}[0-9]{0,}$` (times).
In Python, the `$` anchor also matches just before a single trailing
newline; `withDollarNewline` reproduces that. -/

/-- Character-level body of the date pattern. -/
def dateCore : List Char → Bool
  | [y1, y2, y3, y4, s1, m1, m2, s2, d1, d2] =>
    (y1 == '1' || y1 == '2') && (y2 == '8' || y2 == '9' || y2 == '0') &&
    y3.isDigit && y4.isDigit && s1 == '-' &&
    (m1 == '0' || m1 == '1') && m2.isDigit && s2 == '-' &&
    (d1 == '0' || d1 == '1' || d1 == '2' || d1 == '3') && d2.isDigit
  | _ => false

/-- The tail `[.]{0,1}[0-9]{0,}` of the time pattern. -/
def timeTail : List Char → Bool
  | [] => true
  | '.' :: rest => rest.all (·.isDigit)
  | rest => rest.all (·.isDigit)

/-- Character-level body of the time pattern. -/
def timeCore : List Char → Bool
  | h1 :: h2 :: c1 :: m1 :: m2 :: c2 :: s1 :: s2 :: rest =>
    ((h1 == '0' || h1 == '1') && h2.isDigit ||
      h1 == '2' && (h2 == '0' || h2 == '1' || h2 == '2' || h2 == '3' || h2 == '4')) &&
    c1 == ':' && ('0' ≤ m1 && m1 ≤ '5') && m2.isDigit &&
    c2 == ':' && ('0' ≤ s1 && s1 ≤ '5') && s2.isDigit && timeTail rest
  | _ => false

/-- Wraps a pattern body with the Python `$` behaviour: the anchor also
matches just before one trailing newline. -/
def withDollarNewline (core : List Char → Bool) (s : String) : Bool :=
  core s.data || (s.data.getLast? == some '\n' && core s.data.dropLast)

/-- `re.match` against the source's date pattern (anchored both ends). -/
def pyMatchDate (s : String) : Bool := withDollarNewline dateCore s

/-- `re.match` against the source's time pattern (anchored both ends). -/
def pyMatchTime (s : String) : Bool := withDollarNewline timeCore s

/-- Numeric value of a digit character. -/
def charDigit (c : Char) : Nat := c.toNat - '0'.toNat

/-- Gregorian leap-year test. -/
def isLeapYear (y : Nat) : Bool := (y % 4 == 0 && y % 100 != 0) || y % 400 == 0

/-- Days in a month of the proleptic Gregorian calendar. -/
def daysInMonth (y m : Nat) : Nat :=
  if m == 2 then (if isLeapYear y then 29 else 28)
  else if m == 4 || m == 6 || m == 9 || m == 11 then 30
  else 31

/-- `pd.to_datetime` on a template-formatted date string: parses
`YYYY-MM-DD` and insists on calendar validity (`to_datetime` raises on an
out-of-calendar day such as `2023-02-30`), returning a chronologically
ordered ordinal.  Other textual formats `to_datetime` would accept do not
occur in this pipeline and are not modelled. -/
def parseDate (s : String) : Option Nat :=
  match s.data with
  | [y1, y2, y3, y4, h1, m1, m2, h2, d1, d2] =>
    if y1.isDigit && y2.isDigit && y3.isDigit && y4.isDigit && h1 == '-' &&
        m1.isDigit && m2.isDigit && h2 == '-' && d1.isDigit && d2.isDigit then
      let y := charDigit y1 * 1000 + charDigit y2 * 100 + charDigit y3 * 10 + charDigit y4
      let m := charDigit m1 * 10 + charDigit m2
      let d := charDigit d1 * 10 + charDigit d2
      if 1 ≤ m && m ≤ 12 && 1 ≤ d && d ≤ daysInMonth y m then
        some (y * 10000 + m * 100 + d)
      else none
    else none
  | _ => none

/-- `pd.to_datetime` of one cell: NaN becomes NaT (`none`); an unparsable
string raises. -/
def parseDateCell (c : Cell) : Except Err (Option Nat) :=
  match c with
  | none => .ok none
  | some s =>
    match parseDate s with
    | some n => .ok (some n)
    | none => .error .dateParse

/-- Strips leading and trailing whitespace, as Python numeric conversion does. -/
def stripWs (cs : List Char) : List Char :=
  ((cs.dropWhile (·.isWhitespace)).reverse.dropWhile (·.isWhitespace)).reverse

/-- Drops one optional leading sign. -/
def signedBody : List Char → List Char
  | '+' :: r => r
  | '-' :: r => r
  | r => r

/-- Whether Python `int(value)` succeeds on a string: optional sign and a
nonempty run of digits after stripping whitespace (digit-group underscores
are not modelled; no pipeline input uses them). -/
def pyIntOk (s : String) : Bool :=
  let b := signedBody (stripWs s.data)
  !b.isEmpty && b.all (·.isDigit)

/-- Splits at the first character satisfying `p`, if any. -/
def splitFirst (p : Char → Bool) : List Char → List Char × Option (List Char)
  | [] => ([], none)
  | c :: r =>
    if p c then ([], some r)
    else
      let t := splitFirst p r
      (c :: t.1, t.2)

/-- Whether Python `float(value)` succeeds on a string: optional sign, then a
decimal mantissa with optional exponent, or inf/infinity/nan. -/
def pyFloatOk (s : String) : Bool :=
  let b := signedBody (stripWs s.data)
  let lower := b.map Char.toLower
  if lower == "inf".data || lower == "infinity".data || lower == "nan".data then true
  else
    let me := splitFirst (fun c => c == 'e' || c == 'E') b
    let mant :=
      match splitFirst (fun c => c == '.') me.1 with
      | (ip, none) => !ip.isEmpty && ip.all (·.isDigit)
      | (ip, some fp) =>
        ip.all (·.isDigit) && fp.all (·.isDigit) && !(ip.isEmpty && fp.isEmpty)
    let expo :=
      match me.2 with
      | none => true
      | some e =>
        let e' := signedBody e
        !e'.isEmpty && e'.all (·.isDigit)
    mant && expo

/-! ### datasets.py -/

/-- Rows matching `WHERE dataset_name = '...'`. -/
def datasetMatches (dataset_name : String) (datasets : List DatasetRow) : List DatasetRow :=
  datasets.filter fun d => d.dataset_name == dataset_name

/-- `check_dataset_name_exists`: 0 matches → false, 1 → true, 2+ →
DatasetDatabaseException. -/
def checkDatasetNameExists (dataset_name : String) (datasets : List DatasetRow) :
    Except Err Bool :=
  match datasetMatches dataset_name datasets with
  | [] => .ok false
  | [_] => .ok true
  | _ => .error .datasetDup

/-- `get_dataset_id`: 0 matches → raise, 2+ → raise, else the (single)
matching row's id. -/
def getDatasetId (dataset_name : String) (datasets : List DatasetRow) : Except Err Nat :=
  match datasetMatches dataset_name datasets with
  | [] => .error .datasetNotFound
  | [d] => .ok d.id
  | _ => .error .datasetDup

/-- `get_dataset_name`: reverse lookup with the same 0/1/2+ contract. -/
def getDatasetName (dataset_id : Nat) (datasets : List DatasetRow) : Except Err String :=
  match datasets.filter (fun d => d.id == dataset_id) with
  | [] => .error .datasetNotFound
  | [d] => .ok d.dataset_name
  | _ => .error .datasetDup

/-- `insert_dataset`: refuses an existing name, then appends the name
verbatim (no normalisation appears in the source). -/
def insertDataset (dataset_name : String) (datasets : List DatasetRow) :
    Except Err (List DatasetRow) :=
  match checkDatasetNameExists dataset_name datasets with
  | .error e => .error e
  | .ok true => .error .datasetNameTaken
  | .ok false =>
    .ok (datasets ++ [{ id := freshId (datasets.map (·.id)), dataset_name := dataset_name }])

/-! ### subjects.py: lookups and the pseudonym generator -/

/-- The join `subjects LEFT JOIN datasets ON d.id = s.dataset_id` filtered by
`WHERE subject_identifier = '...' AND dataset_name = '...'` (the equality
filter makes the left join an inner join). -/
def subjectJoin (subject_identifier dataset_name : String)
    (subjects : List SubjectRow) (datasets : List DatasetRow) :
    List (SubjectRow × DatasetRow) :=
  (subjects.flatMap fun s =>
      (datasets.filter fun d => d.id == s.dataset_id).map fun d => (s, d)).filter
    fun sd => sd.1.subject_identifier == subject_identifier &&
      sd.2.dataset_name == dataset_name

/-- `check_subject_exists`: raises SubjectDatabaseException unless the
dataset exists, then applies the 0/1/2+ contract to the join. -/
def checkSubjectExists (subject_identifier dataset_name : String)
    (subjects : List SubjectRow) (datasets : List DatasetRow) : Except Err Bool :=
  match checkDatasetNameExists dataset_name datasets with
  | .error e => .error e
  | .ok false => .error .subjectDatasetMissing
  | .ok true =>
    match subjectJoin subject_identifier dataset_name subjects datasets with
    | [] => .ok false
    | [_] => .ok true
    | _ => .error .subjectDup

/-- `get_subject_id`: same dataset gate, then 0 → raise, 1 → id, 2+ → raise. -/
def getSubjectId (subject_identifier dataset_name : String)
    (subjects : List SubjectRow) (datasets : List DatasetRow) : Except Err Nat :=
  match checkDatasetNameExists dataset_name datasets with
  | .error e => .error e
  | .ok false => .error .subjectDatasetMissing
  | .ok true =>
    match subjectJoin subject_identifier dataset_name subjects datasets with
    | [] => .error .subjectNotFound
    | [sd] => .ok sd.1.id
    | _ => .error .subjectDup

/-- `check_subject_deid_exists`: 0/1/2+ contract on the pseudonym column. -/
def checkSubjectDeidExists (subject_identifier_deid : String)
    (subjects : List SubjectRow) : Except Err Bool :=
  match subjects.filter (fun s => s.subject_identifier_deid == subject_identifier_deid) with
  | [] => .ok false
  | [_] => .ok true
  | _ => .error .subjectDeidDup

/-- `string.ascii_letters`. -/
def asciiLetters : List Char :=
  "abcdefghijklmnopqrstuvwxyzABCDEFGHIJKLMNOPQRSTUVWXYZ".toList

/-- `"".join(random.choices(string.ascii_letters, k=10))`: ten independent
picks from the 52-letter alphabet.  One draw of the random source is a
function from the ten positions to alphabet indices. -/
def randomChoices10 (pick : Fin 10 → Fin 52) : String :=
  String.mk ((List.finRange 10).map fun j => asciiLetters.getD (pick j).val 'a')

/-- A stream of candidate pseudonyms produced by successive draws. -/
def randomLetters (picks : Nat → Fin 10 → Fin 52) : Nat → String :=
  fun k => randomChoices10 (picks k)

/-- `generate_subject_identifier_deid`: draws a candidate and redraws while
the store reports a collision.  `cand` is the stream of draws, `k` the index
of the next draw; `fuel` bounds the retry loop (the source can loop forever
on a saturated store, modelled by `fuelOut`).  Returns the fresh pseudonym
and the next unused draw index. -/
def generateSubjectIdentifierDeid (subjects : List SubjectRow) (cand : Nat → String) :
    Nat → Nat → Except Err (String × Nat)
  | _, 0 => .error .fuelOut
  | k, fuel + 1 =>
    match checkSubjectDeidExists (cand k) subjects with
    | .error e => .error e
    | .ok true => generateSubjectIdentifierDeid subjects cand (k + 1) fuel
    | .ok false => .ok (cand k, k + 1)

/-! ### subjects.py: `insert_subjects` -/

/-- The projection a subject batch carries (the subjects template columns,
in template order). -/
structure SubjIn where
  dataset_name : Cell
  subject_identifier : Cell
  gender : Cell
  date_of_birth : Cell
  date_of_death : Cell
  ethnicity : Cell
deriving DecidableEq, Repr

/-- Cells of one subject row, for the blank-string check. -/
def subjCells (r : SubjIn) : List Cell :=
  [r.dataset_name, r.subject_identifier, r.gender, r.date_of_birth,
   r.date_of_death, r.ethnicity]

/-- `drop_duplicates`: removes later duplicates, keeping the first
occurrence of each value in order. -/
def dedupFirst {α : Type} [DecidableEq α] : List α → List α
  | [] => []
  | a :: as => a :: ((dedupFirst as).filter (fun x => x ≠ a))

/-- `nunique()` of a column: distinct values, NaN excluded. -/
def distinctNonNull (cs : List Cell) : Nat := (dedupFirst (cs.filterMap id)).length

/-- The per-subject loop `check that none of the subjects already exist`. -/
def allSubjectsNew (ids : List Cell) (dataset_name : String)
    (subjects : List SubjectRow) (datasets : List DatasetRow) : Except Err Unit :=
  match ids with
  | [] => .ok ()
  | c :: rest =>
    match checkSubjectExists (render c) dataset_name subjects datasets with
    | .error e => .error e
    | .ok true => .error .subjectExistsAlready
    | .ok false => allSubjectsNew rest dataset_name subjects datasets

/-- Vectorised `pd.to_datetime` over a column. -/
def parseColumn : List Cell → Except Err (List (Option Nat))
  | [] => .ok []
  | c :: rest =>
    match parseDateCell c with
    | .error e => .error e
    | .ok v =>
      match parseColumn rest with
      | .error e => .error e
      | .ok vs => .ok (v :: vs)

/-- The inner `while de_id in assigned` loop around the generator: redraws
until the pseudonym is also unused within the current batch. -/
def genFreshDeid (subjects : List SubjectRow) (cand : Nat → String)
    (assigned : List String) (fuel : Nat) : Nat → Nat → Except Err (String × Nat)
  | _, 0 => .error .fuelOut
  | k, outer + 1 =>
    match generateSubjectIdentifierDeid subjects cand k fuel with
    | .error e => .error e
    | .ok (s, k') =>
      if assigned.contains s then genFreshDeid subjects cand assigned fuel k' outer
      else .ok (s, k')

/-- The per-row pseudonym assignment loop of `insert_subjects`: one
pseudonym per row, in row order, each store-fresh and batch-fresh. -/
def assignDeids (subjects : List SubjectRow) (cand : Nat → String) (fuel : Nat) :
    List SubjIn → List String → Nat → Except Err (List String × Nat)
  | [], _, k => .ok ([], k)
  | _ :: rows, assigned, k =>
    match genFreshDeid subjects cand assigned fuel k fuel with
    | .error e => .error e
    | .ok (s, k') =>
      match assignDeids subjects cand fuel rows (assigned ++ [s]) k' with
      | .error e => .error e
      | .ok (rest, k'') => .ok (s :: rest, k'')

/-- Builds the rows appended to `subjects`, ids counting up from `i`. -/
def buildSubjectRows (dataset_id : Nat) :
    Nat → List (SubjIn × (Option Nat × Option Nat) × String) → List SubjectRow
  | _, [] => []
  | i, (r, (db, dd), s) :: rest =>
    { id := i, dataset_id := dataset_id,
      subject_identifier := render r.subject_identifier,
      subject_identifier_deid := s, gender := r.gender,
      date_of_birth := db, date_of_death := dd, ethnicity := r.ethnicity } ::
      buildSubjectRows dataset_id (i + 1) rest

/-- Pairs each subject row with its parsed dates and its pseudonym. -/
def zipSubjectData : List SubjIn → List (Option Nat) → List (Option Nat) →
    List String → List (SubjIn × (Option Nat × Option Nat) × String)
  | r :: rs, b :: bs, d :: ds, s :: ss =>
    (r, (b, d), s) :: zipSubjectData rs bs ds ss
  | _, _, _, _ => []

/-- `insert_subjects`: validates the batch (duplicates, required fields,
blanks, a single existing dataset, no subject already present, gender
domain, dob ≤ dod), generates pseudonyms, and bulk-appends.  The template
column comparison is subsumed by the typed row structure.  All raises occur
before the single bulk insert, so an error leaves the store unchanged;
returns the new store and the next unused draw index. -/
def insertSubjects (subjects_df : List SubjIn) (st : Store) (cand : Nat → String)
    (k fuel : Nat) : Except Err (Store × Nat) :=
  if ¬ subjects_df.Nodup then .error .duplicatedRows
  else if subjects_df.any (fun r => r.dataset_name.isNone) then .error (.naField "dataset_name")
  else if subjects_df.any (fun r => r.subject_identifier.isNone) then
    .error (.naField "subject_identifier")
  else if subjects_df.any (fun r => (subjCells r).any (fun c => c == some "")) then
    .error .blankStrings
  else if distinctNonNull (subjects_df.map (·.dataset_name)) ≠ 1 then
    .error .multipleDatasetNames
  else
    match subjects_df with
    | [] => .error .emptyBatch
    | r0 :: _ =>
      let dataset_name := render r0.dataset_name
      match checkDatasetNameExists dataset_name st.datasets with
      | .error e => .error e
      | .ok false => .error .subjectDatasetMissing
      | .ok true =>
        match allSubjectsNew (subjects_df.map (·.subject_identifier)) dataset_name
            st.subjects st.datasets with
        | .error e => .error e
        | .ok _ =>
          if subjects_df.any
              (fun r => match r.gender with
                | some g => !(g == "F" || g == "M")
                | none => false) then .error .badGender
          else
            match parseColumn (subjects_df.map (·.date_of_birth)) with
            | .error e => .error e
            | .ok dobs =>
              match parseColumn (subjects_df.map (·.date_of_death)) with
              | .error e => .error e
              | .ok dods =>
                if (dobs.zip dods).any
                    (fun p => match p.1, p.2 with
                      | some b, some d => b > d
                      | _, _ => false) then .error .dobAfterDod
                else
                  match assignDeids st.subjects cand fuel subjects_df [] k with
                  | .error e => .error e
                  | .ok (deids, k') =>
                    match getDatasetId dataset_name st.datasets with
                    | .error e => .error e
                    | .ok dataset_id =>
                      let base := maxId (st.subjects.map (·.id))
                      let newRows := buildSubjectRows dataset_id (base + 1)
                        (zipSubjectData subjects_df dobs dods deids)
                      .ok ({ st with subjects := st.subjects ++ newRows }, k')

/-! ### metadata.py: variable lookups and the bulk metadata fetch -/

/-- `check_variable_name_exists`: 0/1/2+ contract on `metadata_variables`. -/
def checkVariableNameExists (name : String) (vars : List VariableRow) :
    Except Err Bool :=
  match vars.filter (fun v => v.variable_name == name) with
  | [] => .ok false
  | [_] => .ok true
  | _ => .error .variableDup

/-- `get_variable_id`: 0 → raise, 1 → id, 2+ → raise. -/
def getVariableId (variable_name : String) (vars : List VariableRow) :
    Except Err Nat :=
  match vars.filter (fun v => v.variable_name == variable_name) with
  | [] => .error .variableNotFound
  | [v] => .ok v.id
  | _ => .error .variableDup

/-- One row of the bulk `metadata_variables LEFT JOIN
metadata_variable_options` fetch of `insert_measurements`. -/
structure VarDbRow where
  variable_id : Nat
  variable_name : String
  data_type : String
  associated_visit : Cell
  has_options : Bool
  range_min : Cell
  range_max : Cell
  deidentification_required : Bool
  option_name : Cell
deriving DecidableEq, Repr

/-- The bulk fetch `WHERE v.id in (id_list)`: a genuine left join, so a
variable without options contributes one row with a null `option_name`. -/
def variablesDb (ids : List Nat) (vars : List VariableRow)
    (opts : List OptionRow) : List VarDbRow :=
  (vars.filter fun v => ids.contains v.id).flatMap fun v =>
    match opts.filter (fun o => o.variable_id == v.id) with
    | [] => [⟨v.id, v.variable_name, v.data_type, v.associated_visit, v.has_options,
             v.range_min, v.range_max, v.deidentification_required, none⟩]
    | os => os.map fun o =>
        ⟨v.id, v.variable_name, v.data_type, v.associated_visit, v.has_options,
         v.range_min, v.range_max, v.deidentification_required, some o.option_name⟩

/-! ### measurements.py: `load_measurement_file` -/

/-- One row of the measurement template (template column order). -/
structure MeasRow where
  dataset_name : Cell
  subject_identifier : Cell
  variable_name : Cell
  gender : Cell
  date_of_birth : Cell
  date_of_death : Cell
  measurement_date : Cell
  measurement_time : Cell
  visit_grouping : Cell
  value : Cell
  ethnicity : Cell
deriving DecidableEq, Repr

/-- Cells of one measurement row, for the blank-string check. -/
def measRowCells (r : MeasRow) : List Cell :=
  [r.dataset_name, r.subject_identifier, r.variable_name, r.gender,
   r.date_of_birth, r.date_of_death, r.measurement_date, r.measurement_time,
   r.visit_grouping, r.value, r.ethnicity]

/-- A scalar that can live in a pandas index: the default RangeIndex holds
integers, while a membership probe may carry a string. -/
inductive PdScalar where
  | int (n : Nat)
  | str (s : String)
deriving DecidableEq, Repr

/-- The default RangeIndex of a freshly loaded dataframe with `n` rows. -/
def rangeIndex (n : Nat) : List PdScalar := (List.range n).map fun i => .int i

/-- Whether a non-null cell of the column selected by `get` fails the date
pattern (`str.match` leaves NaN as NaN, and `NaN == False` is falsy, so null
cells pass). -/
def badDateColumn (get : MeasRow → Cell) (meas : List MeasRow) : Bool :=
  meas.any fun r =>
    match get r with
    | some v => !(pyMatchDate v)
    | none => false

/-- `load_measurement_file` on an already-parsed table.  The template column
comparison is subsumed by the typed row structure; the remaining checks
follow the source in order.  Note the source's whitespace test
`' ' in meas['dataset_name']` is a pandas membership probe against the
row index (a RangeIndex of integers), not against the column values. -/
def loadMeasurementFile (meas : List MeasRow) : Except Err (List MeasRow) :=
  if ¬ meas.Nodup then .error .duplicatedRows
  else if meas.any (fun r => (measRowCells r).any (fun c => c == some "")) then
    .error .blankStrings
  else if meas.any (fun r => r.dataset_name.isNone) then .error (.naField "dataset_name")
  else if meas.any (fun r => r.subject_identifier.isNone) then
    .error (.naField "subject_identifier")
  else if meas.any (fun r => r.variable_name.isNone) then .error (.naField "variable_name")
  else if distinctNonNull (meas.map (·.dataset_name)) ≠ 1 then
    .error .multipleDatasetNames
  else if (rangeIndex meas.length).contains (.str " ") then .error .whitespaceName
  else if meas.any
      (fun r => match r.gender with
        | some g => !(g == "F" || g == "M")
        | none => false) then .error .badGender
  else if badDateColumn (·.date_of_birth) meas then .error (.badDateFormat "date_of_birth")
  else if badDateColumn (·.date_of_death) meas then .error (.badDateFormat "date_of_death")
  else if badDateColumn (·.measurement_date) meas then
    .error (.badDateFormat "measurement_date")
  else if meas.any
      (fun r => match r.measurement_time with
        | some v => !(pyMatchTime v)
        | none => false) then .error (.badTimeFormat "measurement_time")
  else .ok meas

/-! ### measurements.py: `check_measurement_exists` -/

/-- The key of the duplicate query: three mandatory equalities plus an
equality per non-null optional component (a null component adds no
predicate, widening the match). -/
structure MeasKey where
  subject_identifier : String
  dataset_name : String
  variable_name : String
  measurement_date : Cell
  measurement_time : Cell
  visit_grouping : Cell
deriving DecidableEq, Repr

/-- `WHERE` clause of the duplicate query applied to one joined tuple. -/
def measKeyMatches (key : MeasKey) (m : MeasurementRow) (s : SubjectRow)
    (d : DatasetRow) (v : VariableRow) : Bool :=
  s.subject_identifier == key.subject_identifier &&
  d.dataset_name == key.dataset_name &&
  v.variable_name == key.variable_name &&
  (match key.measurement_date with
   | none => true
   | some x => m.measurement_date == some x) &&
  (match key.measurement_time with
   | none => true
   | some x => m.measurement_time == some x) &&
  (match key.visit_grouping with
   | none => true
   | some x => m.visit_grouping == some x)

/-- The joined tuples of `measurements ⋈ subjects ⋈ datasets ⋈
metadata_variables` restricted to the given measurement rows. -/
def measJoinOver (ms : List MeasurementRow) (subjects : List SubjectRow)
    (datasets : List DatasetRow) (vars : List VariableRow) :
    List (MeasurementRow × SubjectRow × DatasetRow × VariableRow) :=
  ms.flatMap fun m =>
    (subjects.filter fun s => s.id == m.subject_id).flatMap fun s =>
      (datasets.filter fun d => d.id == s.dataset_id).flatMap fun d =>
        (vars.filter fun v => v.id == m.variable_id).map fun v => (m, s, d, v)

/-- `count(*)` of the duplicate query over given measurement rows. -/
def measTupleCountOver (key : MeasKey) (ms : List MeasurementRow)
    (subjects : List SubjectRow) (datasets : List DatasetRow)
    (vars : List VariableRow) : Nat :=
  ((measJoinOver ms subjects datasets vars).filter
    fun t => measKeyMatches key t.1 t.2.1 t.2.2.1 t.2.2.2).length

/-- `count(*)` of the duplicate query over the whole store. -/
def measTupleCount (key : MeasKey) (st : Store) : Nat :=
  measTupleCountOver key st.measurements st.subjects st.datasets st.metadata_variables

/-- The prefix fix-up of `check_measurement_exists`: prepend
`dataset_name + '_'` unless the variable name already starts with it (the
source tests `re.match(f'^{dataset_name}_', ...)`; dataset names here
contain no regex metacharacters, so the test is a literal-prefix test). -/
def formatVariableName (dataset_name variable_name : String) : String :=
  if (dataset_name.data ++ ['_']).isPrefixOf variable_name.data then variable_name
  else dataset_name ++ "_" ++ variable_name

/-- `check_measurement_exists`: builds the widened key and applies the
0/1/2+ contract to the joined count. -/
def checkMeasurementExists (dataset_name subject_identifier variable_name : String)
    (measurement_date measurement_time visit_grouping : Cell) (st : Store) :
    Except Err Bool :=
  let vname := formatVariableName dataset_name variable_name
  match measTupleCount
      ⟨subject_identifier, dataset_name, vname,
       measurement_date, measurement_time, visit_grouping⟩ st with
  | 0 => .ok false
  | 1 => .ok true
  | _ => .error .measurementDup

/-! ### measurements.py: the per-row stage of `insert_measurements` -/

/-- Per-row value validation (lines 302-347 of measurements.py): skipped for
a null value; otherwise type-directed conversion checks (an unknown declared
type, and `boolean`, always pass — Python `bool(str)` never raises), then
the option check, then the de-identification dispatch.  Returns the
`value_deid` cell. -/
def validateValue (data_type : String) (has_options : Bool)
    (optionNames : List Cell) (deidentification_required : Bool) (value : Cell) :
    Except Err Cell :=
  match value with
  | none => .ok none
  | some v =>
    let typeOk : Bool :=
      if data_type == "float" then pyFloatOk v
      else if data_type == "int" then pyIntOk v
      else if data_type == "boolean" then true
      else if data_type == "date" then pyMatchDate v
      else if data_type == "time" then pyMatchTime v
      else true
    if !typeOk then .error (.valueType data_type)
    else if has_options && !(optionNames.contains (some v)) then .error .notAnOption
    else if deidentification_required then .ok none
    else .ok (some v)

/-- Per-row measurement-date checks (lines 349-362): format, then not
before `date_of_birth`, then — only when `date_of_death` is non-null — not
after it.  `pd.to_datetime` of a null cell is NaT and every comparison with
NaT is false. -/
def checkMeasDateBounds (measurement_date date_of_birth date_of_death : Cell) :
    Except Err Unit :=
  match measurement_date with
  | none => .ok ()
  | some md =>
    if !(pyMatchDate md) then .error .mdFormat
    else
      match parseDate md with
      | none => .error .dateParse
      | some pmd =>
        match parseDateCell date_of_birth with
        | .error e => .error e
        | .ok pdob =>
          if (match pdob with
              | some b => decide (pmd < b)
              | none => false) then .error .mdBeforeBirth
          else
            match date_of_death with
            | none => .ok ()
            | some dd =>
              match parseDate dd with
              | none => .error .dateParse
              | some pdd => if pmd > pdd then .error .mdAfterDeath else .ok ()

/-- A processed measurement row, ready for the duplicate filter. -/
structure EnrichedRow where
  row : MeasRow
  subject_id : Nat
  variable_id : Nat
  value_deid : Cell
  visit_grouping : Cell
  meas_exists : Bool
deriving DecidableEq, Repr

/-- The `uniq_subs` lookup by `subject_identifier` (pandas equality between
cells is false when either side is NaN); returns the first match's id. -/
def lookupSubjectId (subMap : List (SubjIn × Nat)) (subject_identifier : Cell) :
    Option Nat :=
  match subMap.filter
      (fun p => match p.1.subject_identifier, subject_identifier with
        | some a, some b => a == b
        | _, _ => false) with
  | [] => none
  | p :: _ => some p.2

/-- Row-wise concatenation `dataset_name + '_' + variable_name` of cells
(NaN propagates). -/
def makeFormatted (d v : Cell) : Cell :=
  match d, v with
  | some a, some b => some (a ++ "_" ++ b)
  | _, _ => none

/-- `visit_grouping` inheritance: a null row cell takes the variable's
`associated_visit` (which may itself be null). -/
def inheritVisit (vg associated : Cell) : Cell :=
  match vg with
  | some v => some v
  | none => associated

/-- One iteration of the big row loop of `insert_measurements` (lines
288-382), in source order: metadata lookup (`values[0]` raising IndexError
on an empty selection), subject/variable id resolution, value validation,
measurement-date bounds, time format, visit-grouping inheritance, duplicate
check. -/
def processRow (dataset_name : Cell) (subMap : List (SubjIn × Nat))
    (varsDb : List VarDbRow) (st : Store) (r : MeasRow) : Except Err EnrichedRow :=
  let fname := makeFormatted r.dataset_name r.variable_name
  let details := varsDb.filter
    (fun jr => match fname with
      | some n => jr.variable_name == n
      | none => false)
  match details with
  | [] => .error .indexErr
  | jr :: _ =>
    match lookupSubjectId subMap r.subject_identifier with
    | none => .error .indexErr
    | some sid =>
      match validateValue jr.data_type jr.has_options (details.map (·.option_name))
          jr.deidentification_required r.value with
      | .error e => .error e
      | .ok vd =>
        match checkMeasDateBounds r.measurement_date r.date_of_birth r.date_of_death with
        | .error e => .error e
        | .ok _ =>
          if (match r.measurement_time with
              | some mt => !(pyMatchTime mt)
              | none => false) then .error .mtFormat
          else
            let vg := inheritVisit r.visit_grouping jr.associated_visit
            match checkMeasurementExists (render dataset_name)
                (render r.subject_identifier) (render fname)
                r.measurement_date r.measurement_time vg st with
            | .error e => .error e
            | .ok b =>
              .ok ⟨r, sid, jr.variable_id, vd, vg, b⟩

/-- The widened duplicate key `processRow` submits for a measurement row,
given the batch dataset name and the row's post-inheritance visit
grouping. -/
def rowKeyFor (dataset_name : Cell) (r : MeasRow) (vg : Cell) : MeasKey :=
  ⟨render r.subject_identifier, render dataset_name,
   formatVariableName (render dataset_name)
     (render (makeFormatted r.dataset_name r.variable_name)),
   r.measurement_date, r.measurement_time, vg⟩

/-- The row loop over the whole batch. -/
def rowLoop (dataset_name : Cell) (subMap : List (SubjIn × Nat))
    (varsDb : List VarDbRow) (st : Store) : List MeasRow → Except Err (List EnrichedRow)
  | [] => .ok []
  | r :: rest =>
    match processRow dataset_name subMap varsDb st r with
    | .error e => .error e
    | .ok e =>
      match rowLoop dataset_name subMap varsDb st rest with
      | .error e' => .error e'
      | .ok l => .ok (e :: l)

/-! ### measurements.py: subject and variable stages of `insert_measurements` -/

/-- The distinct-subject projection of one measurement row. -/
def projectSubject (r : MeasRow) : SubjIn :=
  ⟨r.dataset_name, r.subject_identifier, r.gender, r.date_of_birth,
   r.date_of_death, r.ethnicity⟩

/-- The first pass over `uniq_subs`: record, per distinct subject, whether
it already exists. -/
def checkSubjectsLoop (subs : List SubjIn) (subjects : List SubjectRow)
    (datasets : List DatasetRow) : Except Err (List (SubjIn × Bool)) :=
  match subs with
  | [] => .ok []
  | s :: rest =>
    match checkSubjectExists (render s.subject_identifier) (render s.dataset_name)
        subjects datasets with
    | .error e => .error e
    | .ok b =>
      match checkSubjectsLoop rest subjects datasets with
      | .error e => .error e
      | .ok l => .ok ((s, b) :: l)

/-- The second pass over `uniq_subs` (after the insert): re-check each
subject that was new, failing fatally if it still cannot be found, then
resolve every subject's id. -/
def resolveSubjectsLoop (flagged : List (SubjIn × Bool)) (subjects : List SubjectRow)
    (datasets : List DatasetRow) : Except Err (List (SubjIn × Nat)) :=
  match flagged with
  | [] => .ok []
  | (s, b) :: rest =>
    let recheck : Except Err Unit :=
      if b then .ok ()
      else
        match checkSubjectExists (render s.subject_identifier) (render s.dataset_name)
            subjects datasets with
        | .error e => .error e
        | .ok true => .ok ()
        | .ok false => .error .subjectNotFound
    match recheck with
    | .error e => .error e
    | .ok _ =>
      match getSubjectId (render s.subject_identifier) (render s.dataset_name)
          subjects datasets with
      | .error e => .error e
      | .ok i =>
        match resolveSubjectsLoop rest subjects datasets with
        | .error e => .error e
        | .ok l => .ok ((s, i) :: l)

/-- An entry of `uniq_vars` after resolution. -/
structure VarEntry where
  dataset_name : Cell
  variable_name : Cell
  formatted : Cell
  variable_id : Nat
deriving DecidableEq, Repr

/-- The variable stage: per distinct `(dataset_name, variable_name)` pair,
format the name, fail fatally if it is not in the dictionary, and resolve
its id (measurement files never create variables). -/
def resolveVarsLoop (pairs : List (Cell × Cell)) (vars : List VariableRow) :
    Except Err (List VarEntry) :=
  match pairs with
  | [] => .ok []
  | (d, v) :: rest =>
    let f := makeFormatted d v
    match checkVariableNameExists (render f) vars with
    | .error e => .error e
    | .ok false => .error .variableNotFound
    | .ok true =>
      match getVariableId (render f) vars with
      | .error e => .error e
      | .ok i =>
        match resolveVarsLoop rest vars with
        | .error e => .error e
        | .ok l => .ok (⟨d, v, f, i⟩ :: l)

/-- Conversion of a surviving row to the insert payload. -/
def toMeasurementRow (i : Nat) (e : EnrichedRow) : MeasurementRow :=
  { id := i, subject_id := e.subject_id, variable_id := e.variable_id,
    measurement_date := e.row.measurement_date,
    measurement_time := e.row.measurement_time,
    visit_grouping := e.visit_grouping, value := e.row.value,
    value_deid := e.value_deid }

/-- Bulk conversion, ids counting up from `i`. -/
def buildMeasRows : Nat → List EnrichedRow → List MeasurementRow
  | _, [] => []
  | i, e :: rest => toMeasurementRow i e :: buildMeasRows (i + 1) rest

/-- The counts `insert_measurements` prints per stage. -/
structure Report where
  newSubjects : Nat
  oldSubjects : Nat
  newMeasurements : Nat
  oldMeasurements : Nat
deriving DecidableEq, Repr

/-- `insert_measurements` end to end.  The formatted-wrapper checks are
subsumed by the typed batch.  Note the dataset-existence test on line 199 of
the source constructs its exception without raising it, so a missing dataset
actually fails in `get_dataset_id`.  An error result carries the store as
committed at raise time; `cand`/`fuel` feed the pseudonym generator. -/
def insertMeasurements (batch : List MeasRow) (st : Store) (cand : Nat → String)
    (fuel : Nat) : Except (Err × Store) (Report × Store) :=
  match batch with
  | [] => .error (.indexErr, st)
  | r0 :: _ =>
    let dataset_name := r0.dataset_name
    match checkDatasetNameExists (render dataset_name) st.datasets with
    | .error e => .error (e, st)
    | .ok _ =>
      match getDatasetId (render dataset_name) st.datasets with
      | .error e => .error (e, st)
      | .ok _dataset_id =>
        let uniqSubs := dedupFirst (batch.map projectSubject)
        match checkSubjectsLoop uniqSubs st.subjects st.datasets with
        | .error e => .error (e, st)
        | .ok flagged =>
          let oldSubs := (flagged.filter (fun p => p.2)).length
          let subsToInsert := (flagged.filter (fun p => !p.2)).map (·.1)
          let newSubs := subsToInsert.length
          match (if newSubs > 0 then insertSubjects subsToInsert st cand 0 fuel
                 else .ok (st, 0)) with
          | .error e => .error (e, st)
          | .ok (st2, _) =>
            match resolveSubjectsLoop flagged st2.subjects st2.datasets with
            | .error e => .error (e, st2)
            | .ok subMap =>
              let uniqVars := dedupFirst (batch.map fun r => (r.dataset_name, r.variable_name))
              match resolveVarsLoop uniqVars st2.metadata_variables with
              | .error e => .error (e, st2)
              | .ok varEntries =>
                let idList := varEntries.map (·.variable_id)
                let varsDb := variablesDb idList st2.metadata_variables
                  st2.metadata_variable_options
                match rowLoop dataset_name subMap varsDb st2 batch with
                | .error e => .error (e, st2)
                | .ok enr =>
                  let oldMeas := (enr.filter (fun e => e.meas_exists)).length
                  let newList := enr.filter (fun e => !e.meas_exists)
                  let newMeas := newList.length
                  if newMeas > 0 then
                    let base := maxId (st2.measurements.map (·.id))
                    .ok (⟨newSubs, oldSubs, newMeas, oldMeas⟩,
                         { st2 with measurements :=
                            st2.measurements ++ buildMeasRows (base + 1) newList })
                  else .ok (⟨newSubs, oldSubs, newMeas, oldMeas⟩, st2)

/-! ### Concrete fixtures used by witnesses and counterexamples -/

/-- A dictionary variable `DS_v` of type `str`, no options, no
de-identification. -/
def exVar : VariableRow :=
  { id := 1, variable_name := "DS_v", dataset_id := 1, data_type := "str",
    associated_visit := none, has_options := false, range_min := none,
    range_max := none, deidentification_required := false }

/-- A store holding one dataset `DS` and the variable `DS_v`, nothing else. -/
def exStore : Store :=
  { datasets := [{ id := 1, dataset_name := "DS" }], subjects := [],
    metadata_variables := [exVar], metadata_variable_options := [],
    measurements := [] }

/-- A measurement of `v` for subject `S1` with a null `measurement_date`. -/
def exRowA : MeasRow :=
  { dataset_name := some "DS", subject_identifier := some "S1",
    variable_name := some "v", gender := some "F",
    date_of_birth := some "1990-01-01", date_of_death := none,
    measurement_date := none, measurement_time := none,
    visit_grouping := none, value := some "a", ethnicity := none }

/-- The same measurement with `measurement_date` populated. -/
def exRowB : MeasRow := { exRowA with measurement_date := some "2000-01-01" }

/-- A batch whose two distinct rows overlap under the null-omitting
duplicate key. -/
def exBatch : List MeasRow := [exRowA, exRowB]

/-- A deterministic pseudonym draw stream. -/
def exCand : Nat → String := fun _ => "abcdefghij"

/-- The subject row the first ingestion of `exBatch` creates. -/
def exSubject : SubjectRow :=
  { id := 1, dataset_id := 1, subject_identifier := "S1",
    subject_identifier_deid := "abcdefghij", gender := some "F",
    date_of_birth := some 19900101, date_of_death := none, ethnicity := none }

/-- The store after the first ingestion of `exBatch` into `exStore`. -/
def exStore1 : Store :=
  { datasets := [{ id := 1, dataset_name := "DS" }], subjects := [exSubject],
    metadata_variables := [exVar], metadata_variable_options := [],
    measurements :=
      [{ id := 1, subject_id := 1, variable_id := 1, measurement_date := none,
         measurement_time := none, visit_grouping := none, value := some "a",
         value_deid := some "a" },
       { id := 2, subject_id := 1, variable_id := 1,
         measurement_date := some "2000-01-01", measurement_time := none,
         visit_grouping := none, value := some "a", value_deid := some "a" }] }

/-- The report of the first ingestion of `exBatch`. -/
def exRep1 : Report := ⟨1, 0, 2, 0⟩

/-- A measurement row whose dataset name contains a space. -/
def wsRow : MeasRow :=
  { dataset_name := some "MY DS", subject_identifier := some "S1",
    variable_name := some "v", gender := none, date_of_birth := none,
    date_of_death := none, measurement_date := none, measurement_time := none,
    visit_grouping := none, value := none, ethnicity := none }

/-- A single fully-keyed measurement row (all duplicate-key parts that are
present are distinct per row, trivially, as there is one row). -/
def wRow : MeasRow :=
  { dataset_name := some "DS", subject_identifier := some "S1",
    variable_name := some "v", gender := some "F",
    date_of_birth := some "1990-01-01", date_of_death := none,
    measurement_date := some "2000-01-01", measurement_time := none,
    visit_grouping := none, value := some "a", ethnicity := none }

/-- The store after ingesting `[wRow]` into `exStore`. -/
def wStore1 : Store :=
  { datasets := [{ id := 1, dataset_name := "DS" }], subjects := [exSubject],
    metadata_variables := [exVar], metadata_variable_options := [],
    measurements :=
      [{ id := 1, subject_id := 1, variable_id := 1,
         measurement_date := some "2000-01-01", measurement_time := none,
         visit_grouping := none, value := some "a", value_deid := some "a" }] }

/-- The report of the first ingestion of `[wRow]`. -/
def wRep1 : Report := ⟨1, 0, 1, 0⟩

/-- The report of the second ingestion of `[wRow]`. -/
def wRep2 : Report := ⟨0, 1, 0, 1⟩

/-! ## Theorems -/

/-- Every id in the list is bounded by `maxId`. -/
theorem le_maxId_of_mem {ids : List Nat} {i : Nat} (h : i ∈ ids) : i ≤ maxId ids := by
  induction ids with
  | nil => cases h
  | cons x xs ih =>
    rcases List.mem_cons.mp h with rfl | h'
    · exact Nat.le_max_left _ _
    · exact le_trans (ih h') (Nat.le_max_right _ _)

/-- C2: existence and resolution agree on the `datasets` natural key: zero
matching rows give `(false, NotFoundError)`, exactly one gives `(true, id)`,
two or more give a consistency error from both lookups. -/
theorem dataset_exists_resolve_agree (name : String) (ds : List DatasetRow) :
    ((datasetMatches name ds).length = 0 →
      checkDatasetNameExists name ds = .ok false ∧
      getDatasetId name ds = .error .datasetNotFound) ∧
    (∀ d, datasetMatches name ds = [d] →
      checkDatasetNameExists name ds = .ok true ∧ getDatasetId name ds = .ok d.id) ∧
    (2 ≤ (datasetMatches name ds).length →
      checkDatasetNameExists name ds = .error .datasetDup ∧
      getDatasetId name ds = .error .datasetDup) := by
  refine ⟨fun h0 => ?_, fun d hd => ?_, fun h2 => ?_⟩
  · have h : datasetMatches name ds = [] := List.length_eq_zero.mp h0
    exact ⟨by simp [checkDatasetNameExists, h], by simp [getDatasetId, h]⟩
  · exact ⟨by simp [checkDatasetNameExists, hd], by simp [getDatasetId, hd]⟩
  · rcases hm : datasetMatches name ds with _ | ⟨a, _ | ⟨b, t⟩⟩
    · rw [hm] at h2; simp at h2
    · rw [hm] at h2; simp at h2
    · exact ⟨by simp [checkDatasetNameExists, hm], by simp [getDatasetId, hm]⟩

/-- Witness for C2 at a concrete store with exactly one matching row. -/
theorem dataset_exists_resolve_agree_witness :
    checkDatasetNameExists "A" [⟨1, "A"⟩] = .ok true ∧
    getDatasetId "A" [⟨1, "A"⟩] = .ok 1 :=
  (dataset_exists_resolve_agree "A" [⟨1, "A"⟩]).2.1 ⟨1, "A"⟩ (by decide)

/-- C3: when the batch's dataset name matches no row of `datasets`,
`insert_measurements` raises before touching any other table and returns
the store unchanged — neither subjects nor measurements are inserted, and
no dataset is created.  (The raise comes from `get_dataset_id`; the
preceding explicit check constructs its exception without raising it.) -/
theorem insertMeasurements_missing_dataset (r0 : MeasRow) (rest : List MeasRow)
    (st : Store) (cand : Nat → String) (fuel : Nat)
    (h0 : datasetMatches (render r0.dataset_name) st.datasets = []) :
    insertMeasurements (r0 :: rest) st cand fuel = .error (.datasetNotFound, st) := by
  simp [insertMeasurements, checkDatasetNameExists, getDatasetId, h0]

/-- Witness for C3: a batch naming the unknown dataset `MY DS`. -/
theorem insertMeasurements_missing_dataset_witness :
    insertMeasurements [wsRow] exStore exCand 3 = .error (.datasetNotFound, exStore) :=
  insertMeasurements_missing_dataset wsRow [] exStore exCand 3 (by decide)

/-- C10: when the dataset name matches no row of `datasets`, both
`check_subject_exists` and `get_subject_id` raise a
SubjectDatabaseException (modelled by `Err.subjectDatasetMissing`).  The
statement quantifies over the whole `subjects` table, so the result is
independent of it: the subjects table is not consulted. -/
theorem subject_lookup_requires_dataset (subject_identifier dataset_name : String)
    (subs : List SubjectRow) (ds : List DatasetRow)
    (h0 : datasetMatches dataset_name ds = []) :
    checkSubjectExists subject_identifier dataset_name subs ds
      = .error .subjectDatasetMissing ∧
    getSubjectId subject_identifier dataset_name subs ds
      = .error .subjectDatasetMissing := by
  constructor <;> simp [checkSubjectExists, getSubjectId, checkDatasetNameExists, h0]

/-- Witness for C10 with a non-empty subjects table and an empty datasets
table. -/
theorem subject_lookup_requires_dataset_witness :
    checkSubjectExists "S1" "NOPE" [exSubject] [] = .error .subjectDatasetMissing ∧
    getSubjectId "S1" "NOPE" [exSubject] [] = .error .subjectDatasetMissing :=
  subject_lookup_requires_dataset "S1" "NOPE" [exSubject] [] (by decide)

/-- C6 (failing input): a measurement file whose single dataset name
contains a space passes `load_measurement_file` — the source's test
`' ' in meas['dataset_name']` probes the integer row index, so the
whitespace branch can never fire. -/
theorem whitespace_dataset_name_accepted :
    wsRow.dataset_name = some "MY DS" ∧
    (rangeIndex 1).contains (.str " ") = false ∧
    loadMeasurementFile [wsRow] = .ok [wsRow] := by decide

/-- C8 (counterexample): inserting the dataset name `" study1 "` and
resolving name → id → name returns the raw string `" study1 "`, not its
upper-cased trimmed form `"STUDY1"` — no normalisation happens anywhere on
this path. -/
theorem dataset_roundtrip_cex :
    insertDataset " study1 " [] = .ok [⟨1, " study1 "⟩] ∧
    getDatasetId " study1 " [⟨1, " study1 "⟩] = .ok 1 ∧
    getDatasetName 1 [⟨1, " study1 "⟩] = .ok " study1 " ∧
    (stripWs " study1 ".data).map Char.toUpper = "STUDY1".data ∧
    " study1 " ≠ "STUDY1" := by decide

/-- C8 (amended): after `insert_dataset` succeeds on a fresh name, resolving
the name to an id and the id back to a name returns the original string
verbatim. -/
theorem dataset_roundtrip_verbatim (name : String) (ds : List DatasetRow)
    (h0 : datasetMatches name ds = []) :
    insertDataset name ds = .ok (ds ++ [⟨freshId (ds.map (·.id)), name⟩]) ∧
    getDatasetId name (ds ++ [⟨freshId (ds.map (·.id)), name⟩])
      = .ok (freshId (ds.map (·.id))) ∧
    getDatasetName (freshId (ds.map (·.id))) (ds ++ [⟨freshId (ds.map (·.id)), name⟩])
      = .ok name := by
  have hname : datasetMatches name (ds ++ [⟨freshId (ds.map (·.id)), name⟩])
      = [⟨freshId (ds.map (·.id)), name⟩] := by
    unfold datasetMatches at h0 ⊢
    rw [List.filter_append, h0]
    simp
  have hid : ∀ d ∈ ds, (d.id == freshId (ds.map (·.id))) = false := by
    intro d hd
    have hle : d.id ≤ maxId (ds.map (·.id)) :=
      le_maxId_of_mem (List.mem_map_of_mem _ hd)
    simp only [freshId, beq_eq_false_iff_ne, ne_eq]
    omega
  refine ⟨?_, ?_, ?_⟩
  · simp [insertDataset, checkDatasetNameExists, h0]
  · simp [getDatasetId, hname]
  · have hfil : List.filter (fun d => d.id == freshId (ds.map (·.id)))
        (ds ++ [({ id := freshId (ds.map (·.id)), dataset_name := name } : DatasetRow)])
        = [({ id := freshId (ds.map (·.id)), dataset_name := name } : DatasetRow)] := by
      rw [List.filter_append, List.filter_eq_nil_iff.mpr (by simpa using hid)]
      simp
    simp [getDatasetName, hfil]

/-- Witness for C8's amended round trip on an empty store. -/
theorem dataset_roundtrip_verbatim_witness :
    insertDataset "A" [] = .ok [⟨1, "A"⟩] ∧
    getDatasetId "A" [⟨1, "A"⟩] = .ok 1 ∧
    getDatasetName 1 [⟨1, "A"⟩] = .ok "A" :=
  dataset_roundtrip_verbatim "A" [] (by decide)

/-- C7: for a non-null value that passes validation, the stored `value_deid`
is null when the variable requires de-identification (the transformation is
an unimplemented placeholder) and is the raw value verbatim otherwise. -/
theorem value_deid_policy (data_type : String) (has_options : Bool)
    (optionNames : List Cell) (v : String) :
    (∀ d, validateValue data_type has_options optionNames true (some v) = .ok d →
      d = none) ∧
    (∀ d, validateValue data_type has_options optionNames false (some v) = .ok d →
      d = some v) := by
  constructor
  · intro d h
    unfold validateValue at h
    repeat' split at h
    all_goals simp_all [ite_eq_iff]
  · intro d h
    unfold validateValue at h
    repeat' split at h
    all_goals simp_all [ite_eq_iff]

/-- Witness for C7 on a `str` variable without options. -/
theorem value_deid_policy_witness :
    validateValue "str" false [] true (some "x") = .ok none ∧
    validateValue "str" false [] false (some "x") = .ok (some "x") ∧
    (none : Cell) = none ∧ (some "x" : Cell) = some "x" :=
  ⟨by decide, by decide,
   (value_deid_policy "str" false [] "x").1 none (by decide),
   (value_deid_policy "str" false [] "x").2 (some "x") (by decide)⟩

/-- C5: for a format-valid, parseable `measurement_date`, the per-row date
check of `insert_measurements` accepts exactly the dates in
`[date_of_birth, date_of_death]` — equality at either bound is accepted,
strictly earlier than birth or strictly later than death raises — and the
death-bound comparison only happens when `date_of_death` is non-null. -/
theorem measurement_date_bounds (md dob dod : String) (pmd pdob pdod : Nat)
    (hfmt : pyMatchDate md = true)
    (hmd : parseDate md = some pmd) (hdob : parseDate dob = some pdob)
    (hdod : parseDate dod = some pdod) :
    (checkMeasDateBounds (some md) (some dob) (some dod) = .ok () ↔
      pdob ≤ pmd ∧ pmd ≤ pdod) ∧
    (checkMeasDateBounds (some md) (some dob) none = .ok () ↔ pdob ≤ pmd) := by
  refine ⟨?_, ?_⟩
  · simp only [checkMeasDateBounds, hfmt, hmd, hdob, hdod, parseDateCell,
      Bool.not_true]
    split_ifs <;> simp_all
  · simp only [checkMeasDateBounds, hfmt, hmd, hdob, parseDateCell,
      Bool.not_true]
    split_ifs <;> simp_all

/-- Witness for C5: a measurement on the subject's date of birth, which is
also the date of death, is accepted. -/
theorem measurement_date_bounds_witness :
    checkMeasDateBounds (some "2000-06-15") (some "2000-06-15") (some "2000-06-15")
      = .ok () :=
  (measurement_date_bounds "2000-06-15" "2000-06-15" "2000-06-15"
      20000615 20000615 20000615 (by decide) (by decide) (by decide) (by decide)).1.mpr
    ⟨le_refl _, le_refl _⟩

/-- A pseudonym drawn as ten alphabet picks has exactly ten characters. -/
theorem randomChoices10_length (p : Fin 10 → Fin 52) :
    (randomChoices10 p).length = 10 := by
  show ((List.finRange 10).map _).length = 10
  rw [List.length_map, List.length_finRange]

/-- A successful run of the generator returns an element of the candidate
stream that the store check reported as absent. -/
theorem generateDeid_ok {subs : List SubjectRow} {cand : Nat → String}
    {fuel : Nat} : ∀ {k : Nat} {s : String} {k' : Nat},
    generateSubjectIdentifierDeid subs cand k fuel = .ok (s, k') →
    (∃ j, s = cand j) ∧ checkSubjectDeidExists s subs = .ok false := by
  induction fuel with
  | zero => intro k s k' h; simp [generateSubjectIdentifierDeid] at h
  | succ n ih =>
    intro k s k' h
    unfold generateSubjectIdentifierDeid at h
    cases hc : checkSubjectDeidExists (cand k) subs with
    | error e => rw [hc] at h; simp at h
    | ok b =>
      rw [hc] at h
      cases b with
      | true => exact ih h
      | false =>
        simp only [Except.ok.injEq, Prod.mk.injEq] at h
        obtain ⟨rfl, rfl⟩ := h
        exact ⟨⟨k, rfl⟩, hc⟩

/-- A successful run of the batch-unique wrapper additionally avoids the
already-assigned pseudonyms. -/
theorem genFreshDeid_ok {subs : List SubjectRow} {cand : Nat → String}
    {assigned : List String} {fuel : Nat} : ∀ {k outer : Nat} {s : String} {k' : Nat},
    genFreshDeid subs cand assigned fuel k outer = .ok (s, k') →
    (∃ j, s = cand j) ∧ checkSubjectDeidExists s subs = .ok false ∧
      s ∉ assigned := by
  intro k outer
  induction outer generalizing k with
  | zero => intro s k' h; simp [genFreshDeid] at h
  | succ n ih =>
    intro s k' h
    unfold genFreshDeid at h
    split at h
    · simp at h
    · rename_i s1 k1 heq
      split at h
      · exact ih h
      · rename_i hmem
        simp only [Except.ok.injEq, Prod.mk.injEq] at h
        obtain ⟨rfl, rfl⟩ := h
        obtain ⟨hg1, hg2⟩ := generateDeid_ok heq
        exact ⟨hg1, hg2, fun hin => hmem (by simpa using hin)⟩

/-- A successful pseudonym assignment pass yields pairwise-distinct,
store-fresh pseudonyms that also avoid everything already assigned. -/
theorem assignDeids_ok {subs : List SubjectRow} {cand : Nat → String}
    {fuel : Nat} : ∀ {rows : List SubjIn} {assigned : List String} {k : Nat}
    {ds : List String} {k' : Nat},
    assignDeids subs cand fuel rows assigned k = .ok (ds, k') →
    ds.Nodup ∧ ∀ s ∈ ds, checkSubjectDeidExists s subs = .ok false ∧
      s ∉ assigned := by
  intro rows
  induction rows with
  | nil =>
    intro assigned k ds k' h
    simp only [assignDeids, Except.ok.injEq, Prod.mk.injEq] at h
    obtain ⟨h1, _⟩ := h
    subst h1
    exact ⟨List.nodup_nil, by simp⟩
  | cons r rows ih =>
    intro assigned k ds k' h
    unfold assignDeids at h
    split at h
    · simp at h
    · rename_i s1 k1 heq
      split at h
      · simp at h
      · rename_i rest k2 heq'
        simp only [Except.ok.injEq, Prod.mk.injEq] at h
        obtain ⟨rfl, rfl⟩ := h
        obtain ⟨hnd, hall⟩ := ih heq'
        obtain ⟨_, hchk, hnin⟩ := genFreshDeid_ok heq
        constructor
        · refine List.nodup_cons.mpr ⟨fun hmem => ?_, hnd⟩
          exact (hall _ hmem).2 (by simp)
        · intro s hs
          rcases List.mem_cons.mp hs with rfl | hs'
          · exact ⟨hchk, hnin⟩
          · obtain ⟨hc, hn⟩ := hall _ hs'
            exact ⟨hc, fun hin => hn (by simp [hin])⟩

/-- C9: a pseudonym returned by `generate_subject_identifier_deid` over the
`random.choices` stream is a string of exactly ten characters that
`check_subject_deid_exists` reports absent at return time (the generator
retries on collision); and the pseudonym-assignment pass of
`insert_subjects` yields pairwise-distinct pseudonyms within the batch. -/
theorem pseudonym_generation (subs : List SubjectRow) :
    (∀ (picks : Nat → Fin 10 → Fin 52) k fuel s k',
      generateSubjectIdentifierDeid subs (randomLetters picks) k fuel = .ok (s, k') →
      s.length = 10 ∧ checkSubjectDeidExists s subs = .ok false) ∧
    (∀ (cand : Nat → String) fuel rows k ds k',
      assignDeids subs cand fuel rows [] k = .ok (ds, k') →
      ds.Nodup ∧ ∀ s ∈ ds, checkSubjectDeidExists s subs = .ok false) := by
  constructor
  · intro picks k fuel s k' h
    obtain ⟨⟨j, rfl⟩, hchk⟩ := generateDeid_ok h
    exact ⟨randomChoices10_length _, hchk⟩
  · intro cand fuel rows k ds k' h
    obtain ⟨hnd, hall⟩ := assignDeids_ok h
    exact ⟨hnd, fun s hs => (hall s hs).1⟩

/-- Witness for C9 on an empty store with a constant pick stream. -/
theorem pseudonym_generation_witness :
    "aaaaaaaaaa".length = 10 ∧
    checkSubjectDeidExists "aaaaaaaaaa" [] = .ok false :=
  (pseudonym_generation []).1 (fun _ _ => 0) 0 3 "aaaaaaaaaa" 1 (by decide)

/-- Any character list accepted by the date-pattern body starts with a
first digit in {1,2} and a second digit in {8,9,0}. -/
theorem dateCore_shape {l : List Char} (h : dateCore l = true) :
    ∃ y1 y2 rest, l = y1 :: y2 :: rest ∧ (y1 = '1' ∨ y1 = '2') ∧
      (y2 = '8' ∨ y2 = '9' ∨ y2 = '0') := by
  unfold dateCore at h
  split at h
  · rename_i y1 y2 y3 y4 s1 m1 m2 s2 d1 d2
    simp only [Bool.and_eq_true, Bool.or_eq_true, beq_iff_eq, or_assoc] at h
    exact ⟨y1, y2, _, rfl, h.1.1.1.1.1.1.1.1.1, h.1.1.1.1.1.1.1.1.2⟩
  · cases h

/-- Soundness direction of the corrected year-prefix set: a string matched
by the code's date pattern starts with one of 18, 19, 20, 10, 28, 29. -/
theorem pyMatchDate_year_prefix {s : String} (h : pyMatchDate s = true) :
    s.data.take 2 ∈
      [['1', '8'], ['1', '9'], ['2', '0'], ['1', '0'], ['2', '8'], ['2', '9']] := by
  unfold pyMatchDate withDollarNewline at h
  simp only [Bool.or_eq_true, Bool.and_eq_true, beq_iff_eq] at h
  rcases h with h | ⟨hlast, hcore⟩
  · obtain ⟨y1, y2, rest, hl, h1, h2⟩ := dateCore_shape h
    rw [hl]
    rcases h1 with rfl | rfl <;> rcases h2 with rfl | rfl | rfl <;> simp
  · obtain ⟨y1, y2, rest, hl, h1, h2⟩ := dateCore_shape hcore
    have hpre : (y1 :: y2 :: rest) <+: s.data := hl ▸ List.dropLast_prefix s.data
    obtain ⟨t2, ht2⟩ := hpre
    have ht : s.data.take 2 = [y1, y2] := by rw [← ht2]; rfl
    rw [ht]
    rcases h1 with rfl | rfl <;> rcases h2 with rfl | rfl | rfl <;> simp

set_option maxHeartbeats 1600000 in
/-- The measurement-file validator never returns a validated batch when some
row carries a non-null date cell that fails the code's date pattern. -/
theorem load_rejects_bad_dates {meas : List MeasRow} {r : MeasRow} {s : String}
    (hr : r ∈ meas)
    (hf : r.date_of_birth = some s ∨ r.date_of_death = some s ∨
      r.measurement_date = some s)
    (hbad : pyMatchDate s = false) :
    ∀ l, loadMeasurementFile meas ≠ .ok l := by
  intro l hok
  unfold loadMeasurementFile at hok
  by_cases c1 : ¬ meas.Nodup
  · rw [if_pos c1] at hok; exact Except.noConfusion hok
  rw [if_neg c1] at hok
  by_cases c2 : (meas.any fun r => (measRowCells r).any fun c => c == some "") = true
  · rw [if_pos c2] at hok; exact Except.noConfusion hok
  rw [if_neg c2] at hok
  by_cases c3 : (meas.any fun r => r.dataset_name.isNone) = true
  · rw [if_pos c3] at hok; exact Except.noConfusion hok
  rw [if_neg c3] at hok
  by_cases c4 : (meas.any fun r => r.subject_identifier.isNone) = true
  · rw [if_pos c4] at hok; exact Except.noConfusion hok
  rw [if_neg c4] at hok
  by_cases c5 : (meas.any fun r => r.variable_name.isNone) = true
  · rw [if_pos c5] at hok; exact Except.noConfusion hok
  rw [if_neg c5] at hok
  by_cases c6 : distinctNonNull (meas.map fun r => r.dataset_name) ≠ 1
  · rw [if_pos c6] at hok; exact Except.noConfusion hok
  rw [if_neg c6] at hok
  by_cases c7 : (rangeIndex meas.length).contains (PdScalar.str " ") = true
  · rw [if_pos c7] at hok; exact Except.noConfusion hok
  rw [if_neg c7] at hok
  by_cases c8 : (meas.any fun r =>
      match r.gender with
      | some g => !(g == "F" || g == "M")
      | none => false) = true
  · rw [if_pos c8] at hok; exact Except.noConfusion hok
  rw [if_neg c8] at hok
  by_cases c9 : badDateColumn (fun r => r.date_of_birth) meas = true
  · rw [if_pos c9] at hok; exact Except.noConfusion hok
  rw [if_neg c9] at hok
  by_cases c10 : badDateColumn (fun r => r.date_of_death) meas = true
  · rw [if_pos c10] at hok; exact Except.noConfusion hok
  rw [if_neg c10] at hok
  by_cases c11 : badDateColumn (fun r => r.measurement_date) meas = true
  · rw [if_pos c11] at hok; exact Except.noConfusion hok
  rw [if_neg c11] at hok
  rcases hf with hf | hf | hf
  · exact c9 (by
      unfold badDateColumn
      rw [List.any_eq_true]
      exact ⟨r, hr, by simp [hf, hbad]⟩)
  · exact c10 (by
      unfold badDateColumn
      rw [List.any_eq_true]
      exact ⟨r, hr, by simp [hf, hbad]⟩)
  · exact c11 (by
      unfold badDateColumn
      rw [List.any_eq_true]
      exact ⟨r, hr, by simp [hf, hbad]⟩)

/-- C4 (counterexample): the claim fails twice on the code's pattern —
`2023-13-01` is accepted (the month class `[0-1][0-9]` admits `13`, whose
leading digit is 1), and `1099-02-01` is accepted although its year prefix
`10` is outside {18,19,20}. -/
theorem date_pattern_year_prefix_cex :
    pyMatchDate "2023-13-01" = true ∧
    pyMatchDate "1099-02-01" = true ∧
    "1099-02-01".data.take 2 = ['1', '0'] ∧
    "1099-02-01".data.take 2 ≠ ['1', '8'] ∧
    "1099-02-01".data.take 2 ≠ ['1', '9'] ∧
    "1099-02-01".data.take 2 ≠ ['2', '0'] := by decide

/-- C4 (amended): the date pattern accepts `2023-13-01` (the month class
`[0-1][0-9]` admits any month 00–19, and `13` has leading digit 1) while
`2023-21-01` is rejected (leading month digit 2); it accepts `2023-02-29`
(pattern-level check only, no calendar validation); every accepted string
has a year prefix with first digit in {1,2} and second in {8,9,0} (that is,
in {18,19,20,10,28,29}); and the measurement-file validator rejects any
batch containing a non-null date field that fails the pattern. -/
theorem date_pattern_amended :
    pyMatchDate "2023-13-01" = true ∧
    pyMatchDate "2023-21-01" = false ∧
    pyMatchDate "2023-02-29" = true ∧
    (∀ s, pyMatchDate s = true →
      s.data.take 2 ∈
        [['1', '8'], ['1', '9'], ['2', '0'], ['1', '0'], ['2', '8'], ['2', '9']]) ∧
    (∀ (meas : List MeasRow) (r : MeasRow) (s : String), r ∈ meas →
      (r.date_of_birth = some s ∨ r.date_of_death = some s ∨
        r.measurement_date = some s) →
      pyMatchDate s = false → ∀ l, loadMeasurementFile meas ≠ .ok l) :=
  ⟨by decide, by decide, by decide, fun _ h => pyMatchDate_year_prefix h,
   fun _ _ _ hr hf hbad => load_rejects_bad_dates hr hf hbad⟩

/-- Witness for C4's amended statement: the prefix property at a concrete
accepted string, and rejection of a concrete batch with a bad date. -/
theorem date_pattern_amended_witness :
    "1899-06-01".data.take 2 ∈
      [['1', '8'], ['1', '9'], ['2', '0'], ['1', '0'], ['2', '8'], ['2', '9']] ∧
    (∀ l, loadMeasurementFile [{ wsRow with date_of_birth := some "0999-01-01" }]
      ≠ .ok l) :=
  ⟨date_pattern_amended.2.2.2.1 "1899-06-01" (by decide),
   date_pattern_amended.2.2.2.2 [{ wsRow with date_of_birth := some "0999-01-01" }]
     { wsRow with date_of_birth := some "0999-01-01" } "0999-01-01"
     (by decide) (Or.inl rfl) (by decide)⟩

/-- C1 (counterexample): a validated two-row batch whose rows differ only
in a null versus populated `measurement_date`.  The first ingestion into a
store holding the dataset and variable succeeds and inserts both rows; the
second ingestion of the identical batch raises a consistency error instead
of reporting zero new rows, because the null-date row's widened duplicate
query now matches both stored measurements. -/
theorem insertMeasurements_idempotence_cex :
    loadMeasurementFile exBatch = .ok exBatch ∧
    insertMeasurements exBatch exStore exCand 9 = .ok (exRep1, exStore1) ∧
    insertMeasurements exBatch exStore1 exCand 9
      = .error (.measurementDup, exStore1) := by decide

/-- A successful `insert_subjects` only appends to the `subjects` table;
every other table is untouched. -/
theorem insertSubjects_frame {df : List SubjIn} {st : Store} {cand : Nat → String}
    {k fuel : Nat} {st2 : Store} {k2 : Nat}
    (h : insertSubjects df st cand k fuel = .ok (st2, k2)) :
    st2.datasets = st.datasets ∧ st2.metadata_variables = st.metadata_variables ∧
    st2.metadata_variable_options = st.metadata_variable_options ∧
    st2.measurements = st.measurements ∧
    ∃ new, st2.subjects = st.subjects ++ new := by
  unfold insertSubjects at h
  by_cases c1 : ¬ df.Nodup
  · rw [if_pos c1] at h; exact Except.noConfusion h
  rw [if_neg c1] at h
  by_cases c2 : (df.any fun r => r.dataset_name.isNone) = true
  · rw [if_pos c2] at h; exact Except.noConfusion h
  rw [if_neg c2] at h
  by_cases c3 : (df.any fun r => r.subject_identifier.isNone) = true
  · rw [if_pos c3] at h; exact Except.noConfusion h
  rw [if_neg c3] at h
  by_cases c4 : (df.any fun r => (subjCells r).any fun c => c == some "") = true
  · rw [if_pos c4] at h; exact Except.noConfusion h
  rw [if_neg c4] at h
  by_cases c5 : distinctNonNull (df.map fun r => r.dataset_name) ≠ 1
  · rw [if_pos c5] at h; exact Except.noConfusion h
  rw [if_neg c5] at h
  cases df with
  | nil => exact Except.noConfusion h
  | cons r0 tl =>
    dsimp only at h
    cases hc : checkDatasetNameExists (render r0.dataset_name) st.datasets with
    | error e => rw [hc] at h; exact Except.noConfusion h
    | ok b =>
      rw [hc] at h
      cases b with
      | false => exact Except.noConfusion h
      | true =>
        dsimp only at h
        cases ha : allSubjectsNew ((r0 :: tl).map fun r => r.subject_identifier)
            (render r0.dataset_name) st.subjects st.datasets with
        | error e => rw [ha] at h; exact Except.noConfusion h
        | ok u =>
          rw [ha] at h
          dsimp only at h
          by_cases c6 : ((r0 :: tl).any fun r =>
              match r.gender with
              | some g => !(g == "F" || g == "M")
              | none => false) = true
          · rw [if_pos c6] at h; exact Except.noConfusion h
          rw [if_neg c6] at h
          cases hp1 : parseColumn ((r0 :: tl).map fun r => r.date_of_birth) with
          | error e => rw [hp1] at h; exact Except.noConfusion h
          | ok dobs =>
            rw [hp1] at h
            dsimp only at h
            cases hp2 : parseColumn ((r0 :: tl).map fun r => r.date_of_death) with
            | error e => rw [hp2] at h; exact Except.noConfusion h
            | ok dods =>
              rw [hp2] at h
              dsimp only at h
              by_cases c7 : ((dobs.zip dods).any fun p =>
                  match p.1, p.2 with
                  | some b, some d => decide (b > d)
                  | _, _ => false) = true
              · rw [if_pos c7] at h; exact Except.noConfusion h
              rw [if_neg c7] at h
              cases hd : assignDeids st.subjects cand fuel (r0 :: tl) [] k with
              | error e => rw [hd] at h; exact Except.noConfusion h
              | ok p =>
                obtain ⟨deids, k'⟩ := p
                rw [hd] at h
                dsimp only at h
                cases hg : getDatasetId (render r0.dataset_name) st.datasets with
                | error e => rw [hg] at h; exact Except.noConfusion h
                | ok did =>
                  rw [hg] at h
                  dsimp only at h
                  simp only [Except.ok.injEq, Prod.mk.injEq] at h
                  obtain ⟨h1, h2⟩ := h
                  subst h1
                  exact ⟨rfl, rfl, rfl, rfl, _, rfl⟩

/-- Inversion of a successful `insert_measurements` run into its stage
facts: the resolved dataset, the subject existence flags, the store after
the subject stage (whose datasets table is unchanged), the resolved subject
and variable maps, the processed rows, and the relation between the final
store and the intermediate one. -/
theorem insertMeasurements_ok_anatomy {r0 : MeasRow} {rest : List MeasRow}
    {st0 : Store} {cand : Nat → String} {fuel : Nat} {rep1 : Report} {st1 : Store}
    (h : insertMeasurements (r0 :: rest) st0 cand fuel = .ok (rep1, st1)) :
    ∃ did flagged st2 subMap varEntries enr,
      getDatasetId (render r0.dataset_name) st0.datasets = .ok did ∧
      checkSubjectsLoop (dedupFirst ((r0 :: rest).map projectSubject))
        st0.subjects st0.datasets = .ok flagged ∧
      st2.datasets = st0.datasets ∧
      resolveSubjectsLoop flagged st2.subjects st2.datasets = .ok subMap ∧
      resolveVarsLoop
        (dedupFirst ((r0 :: rest).map fun r => (r.dataset_name, r.variable_name)))
        st2.metadata_variables = .ok varEntries ∧
      rowLoop r0.dataset_name subMap
        (variablesDb (varEntries.map (·.variable_id)) st2.metadata_variables
          st2.metadata_variable_options) st2 (r0 :: rest) = .ok enr ∧
      st1.datasets = st2.datasets ∧ st1.subjects = st2.subjects ∧
      st1.metadata_variables = st2.metadata_variables ∧
      st1.metadata_variable_options = st2.metadata_variable_options ∧
      st1.measurements = st2.measurements ++
        buildMeasRows (maxId (st2.measurements.map (·.id)) + 1)
          (enr.filter fun e => !e.meas_exists) := by
  unfold insertMeasurements at h
  dsimp only at h
  cases hchk : checkDatasetNameExists (render r0.dataset_name) st0.datasets with
  | error e => rw [hchk] at h; exact Except.noConfusion h
  | ok ex =>
    rw [hchk] at h
    cases hget : getDatasetId (render r0.dataset_name) st0.datasets with
    | error e => rw [hget] at h; exact Except.noConfusion h
    | ok did =>
      rw [hget] at h
      dsimp only at h
      cases hflag : checkSubjectsLoop (dedupFirst ((r0 :: rest).map projectSubject))
          st0.subjects st0.datasets with
      | error e => rw [hflag] at h; exact Except.noConfusion h
      | ok flagged =>
        rw [hflag] at h
        dsimp only at h
        cases hins : (if ((flagged.filter fun p => !p.2).map (fun p => p.1)).length > 0 then
            insertSubjects ((flagged.filter fun p => !p.2).map (fun p => p.1)) st0 cand 0 fuel
          else .ok (st0, 0)) with
        | error e => rw [hins] at h; exact Except.noConfusion h
        | ok p =>
          obtain ⟨st2, kk⟩ := p
          rw [hins] at h
          dsimp only at h
          have hd2 : st2.datasets = st0.datasets := by
            by_cases c : ((flagged.filter fun p => !p.2).map (fun p => p.1)).length > 0
            · rw [if_pos c] at hins
              exact (insertSubjects_frame hins).1
            · rw [if_neg c] at hins
              simp only [Except.ok.injEq, Prod.mk.injEq] at hins
              rw [← hins.1]
          cases hres : resolveSubjectsLoop flagged st2.subjects st2.datasets with
          | error e => rw [hres] at h; exact Except.noConfusion h
          | ok subMap =>
            rw [hres] at h
            dsimp only at h
            cases hvars : resolveVarsLoop
                (dedupFirst ((r0 :: rest).map fun r => (r.dataset_name, r.variable_name)))
                st2.metadata_variables with
            | error e => rw [hvars] at h; exact Except.noConfusion h
            | ok varEntries =>
              rw [hvars] at h
              dsimp only at h
              cases hrow : rowLoop r0.dataset_name subMap
                  (variablesDb (varEntries.map (·.variable_id)) st2.metadata_variables
                    st2.metadata_variable_options) st2 (r0 :: rest) with
              | error e => rw [hrow] at h; exact Except.noConfusion h
              | ok enr =>
                rw [hrow] at h
                dsimp only at h
                by_cases c : (enr.filter fun e => !e.meas_exists).length > 0
                · rw [if_pos c] at h
                  simp only [Except.ok.injEq, Prod.mk.injEq] at h
                  obtain ⟨hrep, hst⟩ := h
                  subst hst
                  refine ⟨did, flagged, st2, subMap, varEntries, enr, ?_, ?_, ?_, ?_,
                    ?_, ?_, ?_, ?_, ?_, ?_, ?_⟩
                  · rfl
                  · rfl
                  · exact hd2
                  · exact hres
                  · exact hvars
                  · exact hrow
                  · rfl
                  · rfl
                  · rfl
                  · rfl
                  · rfl
                · rw [if_neg c] at h
                  simp only [Except.ok.injEq, Prod.mk.injEq] at h
                  obtain ⟨hrep, hst⟩ := h
                  subst hst
                  have hnil : (enr.filter fun e => !e.meas_exists) = [] := by
                    have := Nat.eq_zero_of_not_pos c
                    exact List.length_eq_zero.mp this
                  refine ⟨did, flagged, st2, subMap, varEntries, enr, ?_, ?_, ?_, ?_,
                    ?_, ?_, ?_, ?_, ?_, ?_, ?_⟩
                  · rfl
                  · rfl
                  · exact hd2
                  · exact hres
                  · exact hvars
                  · exact hrow
                  · rfl
                  · rfl
                  · rfl
                  · rfl
                  · rw [hnil]
                    simp [buildMeasRows]

theorem getDatasetId_check {n : String} {ds : List DatasetRow} {i : Nat}
    (h : getDatasetId n ds = .ok i) : checkDatasetNameExists n ds = .ok true := by
  unfold getDatasetId at h
  unfold checkDatasetNameExists
  cases hm : datasetMatches n ds with
  | nil => rw [hm] at h; exact Except.noConfusion h
  | cons d t =>
    cases t with
    | nil => rfl
    | cons d2 t2 => rw [hm] at h; exact Except.noConfusion h

theorem getSubjectId_check {a b : String} {subs : List SubjectRow}
    {ds : List DatasetRow} {i : Nat} (h : getSubjectId a b subs ds = .ok i) :
    checkSubjectExists a b subs ds = .ok true := by
  unfold getSubjectId at h
  unfold checkSubjectExists
  cases hc : checkDatasetNameExists b ds with
  | error e => rw [hc] at h; exact Except.noConfusion h
  | ok v =>
    rw [hc] at h
    cases v with
    | false => exact Except.noConfusion h
    | true =>
      cases hm : subjectJoin a b subs ds with
      | nil => rw [hm] at h; exact Except.noConfusion h
      | cons sd t =>
        cases t with
        | nil => rfl
        | cons sd2 t2 => rw [hm] at h; exact Except.noConfusion h

theorem getSubjectId_join {a b : String} {subs : List SubjectRow}
    {ds : List DatasetRow} {i : Nat} (h : getSubjectId a b subs ds = .ok i) :
    ∃ sd, subjectJoin a b subs ds = [sd] ∧ sd.1.id = i := by
  unfold getSubjectId at h
  cases hc : checkDatasetNameExists b ds with
  | error e => rw [hc] at h; exact Except.noConfusion h
  | ok v =>
    rw [hc] at h
    cases v with
    | false => exact Except.noConfusion h
    | true =>
      cases hm : subjectJoin a b subs ds with
      | nil => rw [hm] at h; exact Except.noConfusion h
      | cons sd t =>
        cases t with
        | nil =>
          rw [hm] at h
          simp only [Except.ok.injEq] at h
          exact ⟨sd, rfl, h⟩
        | cons sd2 t2 => rw [hm] at h; exact Except.noConfusion h

theorem mem_subjectJoin {a b : String} {subs : List SubjectRow}
    {ds : List DatasetRow} {sd : SubjectRow × DatasetRow}
    (h : sd ∈ subjectJoin a b subs ds) :
    sd.1 ∈ subs ∧ sd.2 ∈ ds ∧ sd.2.id = sd.1.dataset_id ∧
    sd.1.subject_identifier = a ∧ sd.2.dataset_name = b := by
  unfold subjectJoin at h
  rw [List.mem_filter] at h
  obtain ⟨hmem, hpred⟩ := h
  rw [List.mem_flatMap] at hmem
  obtain ⟨s, hs, hd⟩ := hmem
  rw [List.mem_map] at hd
  obtain ⟨d, hd', rfl⟩ := hd
  rw [List.mem_filter] at hd'
  simp only [Bool.and_eq_true, beq_iff_eq] at hpred hd'
  exact ⟨hs, hd'.1, hd'.2, hpred.1, hpred.2⟩

theorem variablesDb_mem {ids : List Nat} {vars : List VariableRow}
    {opts : List OptionRow} {jr : VarDbRow} (h : jr ∈ variablesDb ids vars opts) :
    ∃ v ∈ vars, v.id = jr.variable_id ∧ v.variable_name = jr.variable_name := by
  unfold variablesDb at h
  rw [List.mem_flatMap] at h
  obtain ⟨v, hv, hjr⟩ := h
  rw [List.mem_filter] at hv
  refine ⟨v, hv.1, ?_⟩
  rcases hos : opts.filter (fun o => o.variable_id == v.id) with _ | ⟨o, os⟩ <;>
      rw [hos] at hjr
  · simp only [List.mem_singleton] at hjr
    subst hjr
    exact ⟨rfl, rfl⟩
  · rw [List.mem_map] at hjr
    obtain ⟨o', _, rfl⟩ := hjr
    exact ⟨rfl, rfl⟩

theorem lookupSubjectId_mem {subMap : List (SubjIn × Nat)} {c : Cell} {i : Nat}
    (h : lookupSubjectId subMap c = some i) :
    ∃ p ∈ subMap, p.2 = i ∧ ∃ a, p.1.subject_identifier = some a ∧ c = some a := by
  unfold lookupSubjectId at h
  split at h
  · exact Option.noConfusion h
  · rename_i p t hm
    simp only [Option.some.injEq] at h
    have hp := List.mem_filter.mp (show p ∈ _ by rw [hm]; exact List.mem_cons_self p t)
    obtain ⟨hmem, hpred⟩ := hp
    refine ⟨p, hmem, h, ?_⟩
    rcases hsi : p.1.subject_identifier with _ | a <;> rcases hc : c with _ | b <;>
      rw [hsi, hc] at hpred <;> simp at hpred
    exact ⟨a, rfl, by rw [hpred]⟩

theorem buildMeasRows_mem {l : List EnrichedRow} {e : EnrichedRow} (he : e ∈ l) :
    ∀ i, ∃ j, toMeasurementRow j e ∈ buildMeasRows i l := by
  induction l with
  | nil => cases he
  | cons x xs ih =>
    intro i
    rcases List.mem_cons.mp he with rfl | h'
    · exact ⟨i, List.mem_cons_self _ _⟩
    · obtain ⟨j, hj⟩ := ih h' (i + 1)
      exact ⟨j, List.mem_cons_of_mem _ hj⟩

theorem measTupleCountOver_append (key : MeasKey) (ms1 ms2 : List MeasurementRow)
    (subs : List SubjectRow) (ds : List DatasetRow) (vars : List VariableRow) :
    measTupleCountOver key (ms1 ++ ms2) subs ds vars =
      measTupleCountOver key ms1 subs ds vars +
      measTupleCountOver key ms2 subs ds vars := by
  unfold measTupleCountOver measJoinOver
  rw [List.flatMap_append, List.filter_append, List.length_append]

theorem measTupleCountOver_pos {key : MeasKey} {ms : List MeasurementRow}
    {subs : List SubjectRow} {ds : List DatasetRow} {vars : List VariableRow}
    {m : MeasurementRow} {s : SubjectRow} {d : DatasetRow} {v : VariableRow}
    (hm : m ∈ ms) (hs : s ∈ subs) (hd : d ∈ ds) (hv : v ∈ vars)
    (hs' : s.id = m.subject_id) (hd' : d.id = s.dataset_id)
    (hv' : v.id = m.variable_id)
    (hmatch : measKeyMatches key m s d v = true) :
    1 ≤ measTupleCountOver key ms subs ds vars := by
  unfold measTupleCountOver
  have hmem : (m, s, d, v) ∈ measJoinOver ms subs ds vars := by
    unfold measJoinOver
    rw [List.mem_flatMap]
    refine ⟨m, hm, ?_⟩
    rw [List.mem_flatMap]
    refine ⟨s, List.mem_filter.mpr ⟨hs, by simp [hs']⟩, ?_⟩
    rw [List.mem_flatMap]
    refine ⟨d, List.mem_filter.mpr ⟨hd, by simp [hd']⟩, ?_⟩
    rw [List.mem_map]
    exact ⟨v, List.mem_filter.mpr ⟨hv, by simp [hv']⟩, rfl⟩
  have : (m, s, d, v) ∈ (measJoinOver ms subs ds vars).filter
      (fun t => measKeyMatches key t.1 t.2.1 t.2.2.1 t.2.2.2) :=
    List.mem_filter.mpr ⟨hmem, hmatch⟩
  have hne := List.ne_nil_of_mem this
  have := List.length_pos.mpr hne
  omega

theorem formatVariableName_already {a b : String} :
    formatVariableName a (a ++ "_" ++ b) = a ++ "_" ++ b := by
  unfold formatVariableName
  rw [if_pos]
  rw [List.isPrefixOf_iff_prefix]
  refine ⟨b.data, ?_⟩
  rw [String.data_append, String.data_append]

theorem forall2_mem_right {α β : Type} {R : α → β → Prop} {l1 : List α}
    {l2 : List β} (h : List.Forall₂ R l1 l2) {b : β} (hb : b ∈ l2) :
    ∃ a ∈ l1, R a b := by
  induction h with
  | nil => cases hb
  | cons hr ht ih =>
    rcases List.mem_cons.mp hb with rfl | hb'
    · exact ⟨_, List.mem_cons_self _ _, hr⟩
    · obtain ⟨a, ha, har⟩ := ih hb'
      exact ⟨a, List.mem_cons_of_mem _ ha, har⟩

theorem mem_dedupFirst {α : Type} [DecidableEq α] {l : List α} {a : α} :
    a ∈ dedupFirst l ↔ a ∈ l := by
  induction l with
  | nil => simp [dedupFirst]
  | cons x xs ih =>
    unfold dedupFirst
    constructor
    · intro h
      rcases List.mem_cons.mp h with rfl | h'
      · exact List.mem_cons_self _ _
      · exact List.mem_cons_of_mem _ (ih.mp (List.mem_filter.mp h').1)
    · intro h
      rcases List.mem_cons.mp h with rfl | h'
      · exact List.mem_cons_self _ _
      · by_cases hax : a = x
        · subst hax; exact List.mem_cons_self _ _
        · exact List.mem_cons_of_mem _
            (List.mem_filter.mpr ⟨ih.mpr h', by simp [hax]⟩)

theorem distinctNonNull_all_eq {cs : List Cell}
    (h1 : distinctNonNull cs = 1) {a b : String}
    (ha : some a ∈ cs) (hb : some b ∈ cs) : a = b := by
  unfold distinctNonNull at h1
  obtain ⟨x, hx⟩ := List.length_eq_one.mp h1
  have hma : (a : String) ∈ cs.filterMap id := by
    rw [List.mem_filterMap]; exact ⟨some a, ha, rfl⟩
  have hmb : (b : String) ∈ cs.filterMap id := by
    rw [List.mem_filterMap]; exact ⟨some b, hb, rfl⟩
  have ha' := mem_dedupFirst.mpr hma
  have hb' := mem_dedupFirst.mpr hmb
  rw [hx] at ha' hb'
  simp only [List.mem_singleton] at ha' hb'
  rw [ha', hb']

theorem load_ok_facts {meas : List MeasRow} {l : List MeasRow}
    (hv : loadMeasurementFile meas = .ok l) :
    (meas.any fun r => r.dataset_name.isNone) = false ∧
    (meas.any fun r => r.subject_identifier.isNone) = false ∧
    distinctNonNull (meas.map fun r => r.dataset_name) = 1 := by
  unfold loadMeasurementFile at hv
  by_cases c1 : ¬ meas.Nodup
  · rw [if_pos c1] at hv; exact Except.noConfusion hv
  rw [if_neg c1] at hv
  by_cases c2 : (meas.any fun r => (measRowCells r).any fun c => c == some "") = true
  · rw [if_pos c2] at hv; exact Except.noConfusion hv
  rw [if_neg c2] at hv
  by_cases c3 : (meas.any fun r => r.dataset_name.isNone) = true
  · rw [if_pos c3] at hv; exact Except.noConfusion hv
  rw [if_neg c3] at hv
  by_cases c4 : (meas.any fun r => r.subject_identifier.isNone) = true
  · rw [if_pos c4] at hv; exact Except.noConfusion hv
  rw [if_neg c4] at hv
  by_cases c5 : (meas.any fun r => r.variable_name.isNone) = true
  · rw [if_pos c5] at hv; exact Except.noConfusion hv
  rw [if_neg c5] at hv
  by_cases c6 : distinctNonNull (meas.map fun r => r.dataset_name) ≠ 1
  · rw [if_pos c6] at hv; exact Except.noConfusion hv
  exact ⟨Bool.not_eq_true _ |>.mp c3, Bool.not_eq_true _ |>.mp c4,
    Decidable.not_not.mp c6⟩

theorem checkSubjectsLoop_keys {subsL : List SubjIn} {subs : List SubjectRow}
    {ds : List DatasetRow} {flagged : List (SubjIn × Bool)}
    (h : checkSubjectsLoop subsL subs ds = .ok flagged) :
    flagged.map (fun p => p.1) = subsL := by
  induction subsL generalizing flagged with
  | nil =>
    unfold checkSubjectsLoop at h
    simp only [Except.ok.injEq] at h
    subst h
    rfl
  | cons s rest ih =>
    unfold checkSubjectsLoop at h
    split at h
    · exact Except.noConfusion h
    · rename_i b hb
      split at h
      · exact Except.noConfusion h
      · rename_i tl htl
        simp only [Except.ok.injEq] at h
        subst h
        simp only [List.map_cons, List.cons.injEq]
        exact ⟨trivial, ih htl⟩

theorem resolveSubjectsLoop_mem {flagged : List (SubjIn × Bool)}
    {subs : List SubjectRow} {ds : List DatasetRow} {l : List (SubjIn × Nat)}
    (h : resolveSubjectsLoop flagged subs ds = .ok l) :
    ∀ p ∈ l, (∃ b, (p.1, b) ∈ flagged) ∧
      getSubjectId (render p.1.subject_identifier) (render p.1.dataset_name)
        subs ds = .ok p.2 := by
  induction flagged generalizing l with
  | nil =>
    unfold resolveSubjectsLoop at h
    simp only [Except.ok.injEq] at h
    subst h
    intro p hp
    cases hp
  | cons q rest ih =>
    obtain ⟨s, b⟩ := q
    unfold resolveSubjectsLoop at h
    dsimp only at h
    split at h
    · exact Except.noConfusion h
    · split at h
      · exact Except.noConfusion h
      · rename_i i hi
        split at h
        · exact Except.noConfusion h
        · rename_i tl htl
          simp only [Except.ok.injEq] at h
          subst h
          intro p hp
          rcases List.mem_cons.mp hp with rfl | hp'
          · exact ⟨⟨b, List.mem_cons_self _ _⟩, hi⟩
          · obtain ⟨⟨b', hb'⟩, hg⟩ := ih htl p hp'
            exact ⟨⟨b', List.mem_cons_of_mem _ hb'⟩, hg⟩

theorem resolve_to_checkLoop {flagged : List (SubjIn × Bool)}
    {subs : List SubjectRow} {ds : List DatasetRow} {l : List (SubjIn × Nat)}
    (h : resolveSubjectsLoop flagged subs ds = .ok l) :
    checkSubjectsLoop (flagged.map fun p => p.1) subs ds
      = .ok (flagged.map fun p => (p.1, true)) := by
  induction flagged generalizing l with
  | nil => rfl
  | cons q rest ih =>
    obtain ⟨s, b⟩ := q
    unfold resolveSubjectsLoop at h
    dsimp only at h
    split at h
    · exact Except.noConfusion h
    · split at h
      · exact Except.noConfusion h
      · rename_i i hi
        split at h
        · exact Except.noConfusion h
        · rename_i tl htl
          simp only [List.map_cons]
          unfold checkSubjectsLoop
          rw [getSubjectId_check hi, ih htl]

theorem resolve_reflag {flagged : List (SubjIn × Bool)}
    {subs : List SubjectRow} {ds : List DatasetRow} {l : List (SubjIn × Nat)}
    (h : resolveSubjectsLoop flagged subs ds = .ok l) :
    resolveSubjectsLoop (flagged.map fun p => (p.1, true)) subs ds = .ok l := by
  induction flagged generalizing l with
  | nil => exact h
  | cons q rest ih =>
    obtain ⟨s, b⟩ := q
    unfold resolveSubjectsLoop at h
    dsimp only at h
    split at h
    · exact Except.noConfusion h
    · split at h
      · exact Except.noConfusion h
      · rename_i i hi
        split at h
        · exact Except.noConfusion h
        · rename_i tl htl
          simp only [Except.ok.injEq] at h
          subst h
          simp only [List.map_cons]
          unfold resolveSubjectsLoop
          dsimp only
          rw [hi, ih htl]
          rfl

theorem rowLoop_forall2 {dn : Cell} {subMap : List (SubjIn × Nat)}
    {varsDb : List VarDbRow} {st : Store} :
    ∀ {rows : List MeasRow} {enr : List EnrichedRow},
    rowLoop dn subMap varsDb st rows = .ok enr →
    List.Forall₂ (fun r e => processRow dn subMap varsDb st r = .ok e) rows enr := by
  intro rows
  induction rows with
  | nil =>
    intro enr h
    unfold rowLoop at h
    simp only [Except.ok.injEq] at h
    subst h
    exact List.Forall₂.nil
  | cons r rest ih =>
    intro enr h
    unfold rowLoop at h
    split at h
    · exact Except.noConfusion h
    · rename_i e he
      split at h
      · exact Except.noConfusion h
      · rename_i tl htl
        simp only [Except.ok.injEq] at h
        subst h
        exact List.Forall₂.cons he (ih htl)

theorem processRow_ok {dn : Cell} {subMap : List (SubjIn × Nat)}
    {varsDb : List VarDbRow} {st : Store} {r : MeasRow} {e : EnrichedRow}
    (h : processRow dn subMap varsDb st r = .ok e) :
    ∃ jr tl sid vd,
      varsDb.filter
        (fun jr => match makeFormatted r.dataset_name r.variable_name with
          | some n => jr.variable_name == n
          | none => false) = jr :: tl ∧
      lookupSubjectId subMap r.subject_identifier = some sid ∧
      validateValue jr.data_type jr.has_options ((jr :: tl).map (·.option_name))
        jr.deidentification_required r.value = .ok vd ∧
      checkMeasDateBounds r.measurement_date r.date_of_birth r.date_of_death
        = .ok () ∧
      (match r.measurement_time with
        | some mt => !(pyMatchTime mt)
        | none => false) = false ∧
      checkMeasurementExists (render dn) (render r.subject_identifier)
        (render (makeFormatted r.dataset_name r.variable_name)) r.measurement_date
        r.measurement_time (inheritVisit r.visit_grouping jr.associated_visit) st
        = .ok e.meas_exists ∧
      e = ⟨r, sid, jr.variable_id, vd,
        inheritVisit r.visit_grouping jr.associated_visit, e.meas_exists⟩ := by
  unfold processRow at h
  dsimp only at h
  split at h
  · exact Except.noConfusion h
  · rename_i jr tl hdet
    split at h
    · exact Except.noConfusion h
    · rename_i sid hsid
      split at h
      · exact Except.noConfusion h
      · rename_i vd hvd
        split at h
        · exact Except.noConfusion h
        · rename_i u hbounds
          split at h
          · exact Except.noConfusion h
          · rename_i hmt
            split at h
            · exact Except.noConfusion h
            · rename_i b hchk
              simp only [Except.ok.injEq] at h
              subst h
              cases u
              rw [hdet] at hvd
              exact ⟨jr, tl, sid, vd, hdet, hsid, hvd, hbounds,
                Bool.not_eq_true _ |>.mp hmt, hchk, rfl⟩

theorem checkMeasurementExists_pos {dn si vn : String} {md mt vg : Cell}
    {st : Store} {b : Bool}
    (h : checkMeasurementExists dn si vn md mt vg st = .ok b)
    (hpos : 1 ≤ measTupleCount ⟨si, dn, formatVariableName dn vn, md, mt, vg⟩ st) :
    b = true := by
  unfold checkMeasurementExists at h
  dsimp only at h
  rcases hc : measTupleCount ⟨si, dn, formatVariableName dn vn, md, mt, vg⟩ st
      with _ | n
  · rw [hc] at hpos; omega
  · rw [hc] at h
    cases n with
    | zero =>
      simp only [Except.ok.injEq] at h
      exact h.symm
    | succ m => exact Except.noConfusion h

theorem processRow_second {dn : Cell} {subMap : List (SubjIn × Nat)}
    {varsDb : List VarDbRow} {st st' : Store} {r : MeasRow} {e : EnrichedRow}
    (h : processRow dn subMap varsDb st r = .ok e)
    (hkey : 1 ≤ measTupleCount (rowKeyFor dn r e.visit_grouping) st') :
    (∃ err, processRow dn subMap varsDb st' r = .error err) ∨
    (∃ e2, processRow dn subMap varsDb st' r = .ok e2 ∧ e2.meas_exists = true) := by
  obtain ⟨jr, tl, sid, vd, hdet, hsid, hvd, hbounds, hmt, hchk, he⟩ := processRow_ok h
  have hvg : e.visit_grouping = inheritVisit r.visit_grouping jr.associated_visit := by
    rw [he]
  cases hchk2 : checkMeasurementExists (render dn) (render r.subject_identifier)
      (render (makeFormatted r.dataset_name r.variable_name)) r.measurement_date
      r.measurement_time (inheritVisit r.visit_grouping jr.associated_visit) st' with
  | error err =>
    left
    refine ⟨err, ?_⟩
    unfold processRow
    dsimp only
    rw [hdet]
    dsimp only
    rw [hsid]
    dsimp only
    rw [hvd, hbounds]
    try dsimp only
    rw [if_neg (by simp [hmt])]
    try dsimp only
    rw [hchk2]
  | ok b =>
    have hb : b = true := by
      refine checkMeasurementExists_pos hchk2 ?_
      rw [hvg] at hkey
      exact hkey
    subst hb
    right
    refine ⟨⟨r, sid, jr.variable_id, vd,
      inheritVisit r.visit_grouping jr.associated_visit, true⟩, ?_, rfl⟩
    unfold processRow
    dsimp only
    rw [hdet]
    dsimp only
    rw [hsid]
    dsimp only
    rw [hvd, hbounds]
    try dsimp only
    rw [if_neg (by simp [hmt])]
    try dsimp only
    rw [hchk2]

theorem rowLoop_second {dn : Cell} {subMap : List (SubjIn × Nat)}
    {varsDb : List VarDbRow} {st st' : Store} :
    ∀ {rows : List MeasRow} {enr : List EnrichedRow},
    List.Forall₂ (fun r e => processRow dn subMap varsDb st r = .ok e) rows enr →
    (∀ e ∈ enr, 1 ≤ measTupleCount (rowKeyFor dn e.row e.visit_grouping) st') →
    (∃ err, rowLoop dn subMap varsDb st' rows = .error err) ∨
    (∃ enr2, rowLoop dn subMap varsDb st' rows = .ok enr2 ∧
      ∀ e2 ∈ enr2, e2.meas_exists = true) := by
  intro rows enr hf
  induction hf with
  | nil =>
    intro _
    right
    exact ⟨[], rfl, by simp⟩
  | @cons r e rows' enr' hr ht ih =>
    intro hge
    have hrow : e.row = r := by
      obtain ⟨jr, tl, sid, vd, _, _, _, _, _, _, he⟩ := processRow_ok hr
      rw [he]
    have hkey : 1 ≤ measTupleCount (rowKeyFor dn r e.visit_grouping) st' := by
      rw [← hrow]
      exact hge e (List.mem_cons_self _ _)
    rcases processRow_second hr hkey with ⟨err, herr⟩ | ⟨e2, hok2, hflag2⟩
    · left
      refine ⟨err, ?_⟩
      unfold rowLoop
      rw [herr]
    · rcases ih (fun e' he' => hge e' (List.mem_cons_of_mem _ he')) with
        ⟨err, herr⟩ | ⟨enr2, hok2', hall⟩
      · left
        refine ⟨err, ?_⟩
        unfold rowLoop
        rw [hok2]
        dsimp only
        rw [herr]
      · right
        refine ⟨e2 :: enr2, ?_, ?_⟩
        · unfold rowLoop
          rw [hok2]
          dsimp only
          rw [hok2']
        · intro e' he'
          rcases List.mem_cons.mp he' with rfl | he''
          · exact hflag2
          · exact hall _ he''

theorem checkMeas_count_true {dn si vn : String} {md mt vg : Cell} {st : Store}
    (h : checkMeasurementExists dn si vn md mt vg st = .ok true) :
    measTupleCount ⟨si, dn, formatVariableName dn vn, md, mt, vg⟩ st = 1 := by
  unfold checkMeasurementExists at h
  dsimp only at h
  rcases hc : measTupleCount ⟨si, dn, formatVariableName dn vn, md, mt, vg⟩ st
      with _ | n
  · rw [hc] at h; simp at h
  · rw [hc] at h
    cases n with
    | zero => rfl
    | succ m => exact Except.noConfusion h

theorem makeFormatted_some {d v : Cell} {n : String}
    (h : makeFormatted d v = some n) :
    ∃ x y, d = some x ∧ v = some y ∧ n = x ++ "_" ++ y := by
  unfold makeFormatted at h
  rcases d with _ | x <;> rcases v with _ | y <;> simp at h
  exact ⟨x, y, rfl, rfl, h.symm⟩

theorem second_run_counts
    {batch : List MeasRow} {r0 : MeasRow}
    {st2 st1 : Store} {subMap : List (SubjIn × Nat)} {varsDb : List VarDbRow}
    {enr : List EnrichedRow}
    (hf : List.Forall₂
      (fun r e => processRow r0.dataset_name subMap varsDb st2 r = .ok e) batch enr)
    (hsubs : st1.subjects = st2.subjects) (hds : st1.datasets = st2.datasets)
    (hvars : st1.metadata_variables = st2.metadata_variables)
    (hmeas : st1.measurements = st2.measurements ++
      buildMeasRows (maxId (st2.measurements.map (·.id)) + 1)
        (enr.filter fun e => !e.meas_exists))
    (hresmem : ∀ p ∈ subMap, getSubjectId (render p.1.subject_identifier)
      (render p.1.dataset_name) st2.subjects st2.datasets = .ok p.2)
    (hdsname : ∀ p ∈ subMap, p.1.dataset_name = r0.dataset_name)
    (hjr : ∀ jr ∈ varsDb, ∃ v ∈ st2.metadata_variables,
      v.id = jr.variable_id ∧ v.variable_name = jr.variable_name)
    (hds0 : ∀ r ∈ batch, r.dataset_name = r0.dataset_name) :
    ∀ e ∈ enr,
      1 ≤ measTupleCount (rowKeyFor r0.dataset_name e.row e.visit_grouping) st1 := by
  intro e he
  obtain ⟨r, hrmem, hpr⟩ := forall2_mem_right hf he
  obtain ⟨jr, tl, sid, vd, hdet, hsid, hvd, hbounds, hmt, hchk, heq⟩ :=
    processRow_ok hpr
  have hrow : e.row = r := by rw [heq]
  have hvg : e.visit_grouping = inheritVisit r.visit_grouping jr.associated_visit := by
    rw [heq]
  have hsubid : e.subject_id = sid := by rw [heq]
  have hvarid : e.variable_id = jr.variable_id := by rw [heq]
  rw [hrow, hvg]
  have hsplit : measTupleCount
      (rowKeyFor r0.dataset_name r (inheritVisit r.visit_grouping jr.associated_visit)) st1
      = measTupleCount
          (rowKeyFor r0.dataset_name r (inheritVisit r.visit_grouping jr.associated_visit)) st2
        + measTupleCountOver
            (rowKeyFor r0.dataset_name r (inheritVisit r.visit_grouping jr.associated_visit))
            (buildMeasRows (maxId (st2.measurements.map (·.id)) + 1)
              (enr.filter fun e => !e.meas_exists))
            st2.subjects st2.datasets st2.metadata_variables := by
    unfold measTupleCount
    rw [hmeas, hsubs, hds, hvars, measTupleCountOver_append]
  rw [hsplit]
  cases hcase : e.meas_exists with
  | true =>
    rw [hcase] at hchk
    have h1 : measTupleCount
        (rowKeyFor r0.dataset_name r (inheritVisit r.visit_grouping jr.associated_visit)) st2
        = 1 := checkMeas_count_true hchk
    omega
  | false =>
    have hefil : e ∈ enr.filter (fun e => !e.meas_exists) :=
      List.mem_filter.mpr ⟨he, by rw [hcase]; rfl⟩
    obtain ⟨j, hmmem⟩ := buildMeasRows_mem hefil
        (maxId (st2.measurements.map (·.id)) + 1)
    obtain ⟨p, hpmem, hp2, a, hpa, hra⟩ := lookupSubjectId_mem hsid
    have hget := hresmem p hpmem
    rw [hp2] at hget
    obtain ⟨sd, hjoin, hsdid⟩ := getSubjectId_join hget
    have hsd : sd ∈ subjectJoin (render p.1.subject_identifier)
        (render p.1.dataset_name) st2.subjects st2.datasets := by
      rw [hjoin]; exact List.mem_singleton.mpr rfl
    obtain ⟨hsmem, hdmem, hdid, hssi, hdname⟩ := mem_subjectJoin hsd
    have hjrmem : jr ∈ varsDb ∧ _ := List.mem_filter.mp
      (show jr ∈ varsDb.filter _ by rw [hdet]; exact List.mem_cons_self _ _)
    obtain ⟨hjrv, hjrpred⟩ := hjrmem
    obtain ⟨v, hvmem, hvid, hvname⟩ := hjr jr hjrv
    -- the filter predicate forces the formatted name to be present and matched
    rcases hfn : makeFormatted r.dataset_name r.variable_name with _ | n
    · rw [hfn] at hjrpred; simp at hjrpred
    rw [hfn] at hjrpred
    simp only [beq_iff_eq] at hjrpred
    obtain ⟨x, y, hrds, hrv, hn⟩ := makeFormatted_some hfn
    have hr0ds : r0.dataset_name = some x := by rw [← hds0 r hrmem]; exact hrds
    have hkeyname : formatVariableName (render r0.dataset_name)
        (render (makeFormatted r.dataset_name r.variable_name)) = n := by
      rw [hfn, hr0ds, hn]
      exact formatVariableName_already
    have e1 : sd.1.id = (toMeasurementRow j e).subject_id := by
      show sd.1.id = e.subject_id
      rw [hsubid, hsdid]
    have e3 : v.id = (toMeasurementRow j e).variable_id := by
      show v.id = e.variable_id
      rw [hvid, hvarid]
    have e4 : measKeyMatches
        (rowKeyFor r0.dataset_name r (inheritVisit r.visit_grouping jr.associated_visit))
        (toMeasurementRow j e) sd.1 sd.2 v = true := by
      unfold measKeyMatches rowKeyFor toMeasurementRow
      dsimp only
      have h1 : sd.1.subject_identifier = render r.subject_identifier := by
        rw [hssi, hpa, hra]
      have h2 : sd.2.dataset_name = render r0.dataset_name := by
        rw [hdname, hdsname p hpmem]
      have h3 : v.variable_name = formatVariableName (render r0.dataset_name)
          (render (makeFormatted r.dataset_name r.variable_name)) := by
        rw [hkeyname, hvname, hjrpred]
      rw [h1, h2, h3, hrow, ← hvg]
      cases r.measurement_date <;> cases r.measurement_time <;>
        cases e.visit_grouping <;> simp
    have hpos := measTupleCountOver_pos hmmem hsmem hdmem hvmem
      e1 hdid e3 e4
    omega

theorem batch_dataset_names_eq {r0 : MeasRow} {rest : List MeasRow}
    (hnn : ((r0 :: rest).any fun r => r.dataset_name.isNone) = false)
    (hone : distinctNonNull ((r0 :: rest).map fun r => r.dataset_name) = 1) :
    ∀ r ∈ r0 :: rest, r.dataset_name = r0.dataset_name := by
  have hnn' : ∀ q ∈ r0 :: rest, q.dataset_name.isNone = false := by
    intro q hq
    by_contra hcon
    have hq2 : ((r0 :: rest).any fun r => r.dataset_name.isNone) = true :=
      List.any_eq_true.mpr ⟨q, hq, by simpa using hcon⟩
    rw [hq2] at hnn
    exact Bool.noConfusion hnn
  intro r hr
  rcases hv1 : r.dataset_name with _ | v1
  · have h0 := hnn' r hr
    rw [hv1] at h0
    simp at h0
  · rcases hv0 : r0.dataset_name with _ | v0
    · have h0 := hnn' r0 (List.mem_cons_self _ _)
      rw [hv0] at h0
      simp at h0
    · have heq : v1 = v0 := distinctNonNull_all_eq hone
        (List.mem_map.mpr ⟨r, hr, hv1⟩)
        (List.mem_map.mpr ⟨r0, List.mem_cons_self _ _, hv0⟩)
      rw [heq]

theorem flags_filter_not {α : Type} (flagged : List (α × Bool)) :
    ((flagged.map fun p => (p.1, true)).filter fun p => !p.2) = [] := by
  rw [List.filter_eq_nil_iff]
  intro q hq
  rw [List.mem_map] at hq
  obtain ⟨p, _, rfl⟩ := hq
  simp

/-- C1 (amended): running `insert_measurements` a second time with the
identical validated batch against the store produced by a successful first
run never inserts anything.  If the second call succeeds it returns the
store unchanged and reports zero new subjects and zero new measurements.
The second call may instead raise (the null-omitting duplicate key of
`check_measurement_exists` can match two of the freshly inserted rows, a
duplicate-consistency error); even then the store is returned unchanged. -/
theorem insertMeasurements_second_run
    (batch : List MeasRow) (st0 : Store) (cand cand2 : Nat → String)
    (fuel fuel2 : Nat) (rep1 : Report) (st1 : Store) (l : List MeasRow)
    (hv : loadMeasurementFile batch = .ok l)
    (h1 : insertMeasurements batch st0 cand fuel = .ok (rep1, st1)) :
    (∀ rep2 st2, insertMeasurements batch st1 cand2 fuel2 = .ok (rep2, st2) →
      st2 = st1 ∧ rep2.newSubjects = 0 ∧ rep2.newMeasurements = 0) ∧
    (∀ e st2, insertMeasurements batch st1 cand2 fuel2 = .error (e, st2) →
      st2 = st1) := by
  rcases batch with _ | ⟨r0, rest⟩
  · unfold insertMeasurements at h1
    exact Except.noConfusion h1
  obtain ⟨did, flagged, stp, subMap, varEntries, enr, hget, hflag, hd20, hres,
    hvarsE, hrowE, hS1d, hS1s, hS1v, hS1o, hS1m⟩ :=
    insertMeasurements_ok_anatomy h1
  obtain ⟨hnn, hnnsi, hone⟩ := load_ok_facts hv
  have hds0 : ∀ r ∈ r0 :: rest, r.dataset_name = r0.dataset_name :=
    batch_dataset_names_eq hnn hone
  have hkeys := checkSubjectsLoop_keys hflag
  have hdsname : ∀ p ∈ subMap, p.1.dataset_name = r0.dataset_name := by
    intro p hp
    obtain ⟨⟨b, hbmem⟩, _⟩ := resolveSubjectsLoop_mem hres p hp
    have hmem1 : p.1 ∈ flagged.map (fun q => q.1) :=
      List.mem_map.mpr ⟨(p.1, b), hbmem, rfl⟩
    rw [hkeys, mem_dedupFirst] at hmem1
    obtain ⟨rr, hrr, hprj⟩ := List.mem_map.mp hmem1
    have hpd : p.1.dataset_name = rr.dataset_name := by
      rw [← hprj]
      rfl
    rw [hpd]
    exact hds0 rr hrr
  have hf := rowLoop_forall2 hrowE
  have hresmem : ∀ p ∈ subMap, getSubjectId (render p.1.subject_identifier)
      (render p.1.dataset_name) stp.subjects stp.datasets = .ok p.2 :=
    fun p hp => (resolveSubjectsLoop_mem hres p hp).2
  have hjr : ∀ jr ∈ variablesDb (varEntries.map (·.variable_id))
      stp.metadata_variables stp.metadata_variable_options,
      ∃ v ∈ stp.metadata_variables,
        v.id = jr.variable_id ∧ v.variable_name = jr.variable_name :=
    fun jr h => variablesDb_mem h
  have hge := second_run_counts hf hS1s hS1d hS1v hS1m hresmem hdsname hjr hds0
  have hget2 : getDatasetId (render r0.dataset_name) st1.datasets = .ok did := by
    rw [hS1d, hd20]
    exact hget
  have hchk2 : checkDatasetNameExists (render r0.dataset_name) st1.datasets
      = .ok true := getDatasetId_check hget2
  have hflag2 : checkSubjectsLoop (dedupFirst ((r0 :: rest).map projectSubject))
      st1.subjects st1.datasets = .ok (flagged.map fun p => (p.1, true)) := by
    rw [hS1s, hS1d, ← hkeys]
    exact resolve_to_checkLoop hres
  have hres2 : resolveSubjectsLoop (flagged.map fun p => (p.1, true))
      st1.subjects st1.datasets = .ok subMap := by
    rw [hS1s, hS1d]
    exact resolve_reflag hres
  have hvars2 : resolveVarsLoop
      (dedupFirst ((r0 :: rest).map fun r => (r.dataset_name, r.variable_name)))
      st1.metadata_variables = .ok varEntries := by
    rw [hS1v]
    exact hvarsE
  have hz : ¬ (0 : Nat) > 0 := by omega
  rcases rowLoop_second hf hge with ⟨err, herr⟩ | ⟨enr2, hok2, hall⟩
  · have hrun : insertMeasurements (r0 :: rest) st1 cand2 fuel2
        = .error (err, st1) := by
      unfold insertMeasurements
      dsimp only
      rw [hchk2]
      dsimp only
      rw [hget2]
      dsimp only
      rw [hflag2]
      dsimp only
      rw [flags_filter_not]
      simp only [List.map_nil, List.length_nil]
      rw [if_neg hz]
      dsimp only
      rw [hres2]
      dsimp only
      rw [hvars2]
      dsimp only
      rw [hS1v, hS1o, herr]
    constructor
    · intro rep2 st2 heq
      rw [hrun] at heq
      exact Except.noConfusion heq
    · intro e st2 heq
      rw [hrun] at heq
      simp only [Except.error.injEq, Prod.mk.injEq] at heq
      exact heq.2.symm
  · have hnil : enr2.filter (fun e => !e.meas_exists) = [] := by
      rw [List.filter_eq_nil_iff]
      intro e he
      rw [hall e he]
      simp
    have hrun : insertMeasurements (r0 :: rest) st1 cand2 fuel2
        = .ok (⟨0, ((flagged.map fun p => (p.1, true)).filter
            (fun p => p.2)).length, 0,
            (enr2.filter (fun e => e.meas_exists)).length⟩, st1) := by
      unfold insertMeasurements
      dsimp only
      rw [hchk2]
      dsimp only
      rw [hget2]
      dsimp only
      rw [hflag2]
      dsimp only
      rw [flags_filter_not]
      simp only [List.map_nil, List.length_nil]
      rw [if_neg hz]
      dsimp only
      rw [hres2]
      dsimp only
      rw [hvars2]
      dsimp only
      rw [hS1v, hS1o, hok2]
      dsimp only
      rw [hnil]
      simp only [List.length_nil]
      rw [if_neg hz]
    constructor
    · intro rep2 st2 heq
      rw [hrun] at heq
      simp only [Except.ok.injEq, Prod.mk.injEq] at heq
      refine ⟨heq.2.symm, ?_, ?_⟩
      · rw [← heq.1]
      · rw [← heq.1]
    · intro e st2 heq
      rw [hrun] at heq
      exact Except.noConfusion heq

/-- Concrete run of the amended C1 theorem: re-ingesting `[wRow]` into the
store its first ingestion produced returns that store unchanged with zero
new subjects and zero new measurements. -/
theorem insertMeasurements_second_run_witness :
    wStore1 = wStore1 ∧ wRep2.newSubjects = 0 ∧ wRep2.newMeasurements = 0 :=
  (insertMeasurements_second_run [wRow] exStore exCand exCand 9 9 wRep1 wStore1
    [wRow] (by decide) (by decide)).1 wRep2 wStore1 (by decide)

end CvdNet
